import Mathlib

/-
Verification of the sneaker-store serverless backend (AWS SAM + Lambda +
MySQL).  The development shallowly embeds the request handlers of the
repository:

* `handlePutUpdate` / `handlePatchInventory` and their routing handler,
  from `.aws-sam/build/PostShoesFunction/handlers/imageList.js`
  (the updateShoes document inside it);
* the DELETE `/shoes/{id}` handler and `withDb` from `unnamed/part_003`;
* the create (seed) handler from
  `.aws-sam/build/ListImagesFunction/handlers/seedShoes.js`.

The store is modelled as two in-memory tables (`shoes`, `shoe_inventory`)
with an auto-increment counter.  SQL statements become pure functions on
that state; a small state monad `TxM` threads the database, the
transaction snapshot (begin/commit/rollback), a query counter, an effect
trace (connection acquisitions and issued queries) and an external
failure oracle that may make any query throw with a given message,
modelling transport/store errors.  JSON request values are modelled by
`JsVal` with JavaScript truthiness and `Number` coercion (decimal string
literals; other non-numeric strings coerce to NaN, modelled as `none`).
-/

namespace SneakerStore

/-- JS value appearing in parsed JSON request bodies (restricted to the
shapes the handlers inspect: undefined, null, numbers, strings, booleans).
JS numbers are modelled by `Rat`; NaN is represented as `none` at the
points where `Number` coercion is applied. -/
inductive JsVal where
  | undef
  | null
  | num (q : Rat)
  | str (s : String)
  | boolv (b : Bool)
deriving DecidableEq, Repr

/-- JavaScript truthiness of a `JsVal` (NaN cannot arise as a stored
`num` since `Rat` has no NaN). -/
def truthy : JsVal → Bool
  | JsVal.undef => false
  | JsVal.null => false
  | JsVal.num q => decide (q ≠ 0)
  | JsVal.str s => decide (s ≠ "")
  | JsVal.boolv b => b

/-- The JS expression `a || b`. -/
def jsOr (a b : JsVal) : JsVal := if truthy a then a else b

/-- The JS loose test `v != null` (false exactly for null and undefined). -/
def hasVal : JsVal → Bool
  | JsVal.undef => false
  | JsVal.null => false
  | _ => true

/-- Numeric value of a decimal digit character. -/
def charDigit (c : Char) : Option Nat :=
  if c.isDigit then some (c.toNat - 48) else none

/-- Fold a digit string into a natural number; `none` on a non-digit. -/
def digitsToNat (l : List Char) : Option Nat :=
  l.foldl
    (fun acc c =>
      match acc, charDigit c with
      | some a, some d => some (a * 10 + d)
      | _, _ => none)
    (some 0)

/-- Parse an unsigned decimal literal (`123`, `12.5`, `.5`, `7.`);
`none` models NaN. -/
def parseUnsigned (l : List Char) : Option Rat :=
  let ints := l.takeWhile Char.isDigit
  let rest := l.dropWhile Char.isDigit
  match rest with
  | [] =>
    if ints.isEmpty then none
    else (digitsToNat ints).map (fun n => (n : Rat))
  | c :: frac =>
    if c = '.' ∧ frac.all Char.isDigit ∧ ¬(ints.isEmpty ∧ frac.isEmpty) then
      match digitsToNat ints, digitsToNat frac with
      | some i, some f => some ((i : Rat) + (f : Rat) / ((10 : Rat) ^ frac.length))
      | _, _ => none
    else none

/-- Whitespace trimming over a character list. -/
def trimChars (l : List Char) : List Char :=
  ((l.dropWhile Char.isWhitespace).reverse.dropWhile Char.isWhitespace).reverse

/-- JS `Number(s)` for a string, restricted to plain decimal literals
(whitespace-trimmed; empty string coerces to 0; anything else to NaN).
Exponent/hex forms are outside the modelled input domain. -/
def jsStringToNumber (s : String) : Option Rat :=
  match trimChars s.data with
  | [] => some 0
  | c :: rest =>
    if c = '-' then (parseUnsigned rest).map (fun q => -q)
    else if c = '+' then parseUnsigned rest
    else parseUnsigned (c :: rest)

/-- JS `Number(v)`; `none` models NaN (so `Number.isFinite` is `isSome`,
as the modelled domain has no infinities). -/
def jsToNumber : JsVal → Option Rat
  | JsVal.undef => none
  | JsVal.null => some 0
  | JsVal.num q => some q
  | JsVal.str s => jsStringToNumber s
  | JsVal.boolv b => some (if b then 1 else 0)

/-! ### The two-table data model -/

/-- A row of the `shoes` table (columns as in the README schema:
id, name, brand, price, image; `image` nullable in practice). -/
structure ShoeRow where
  id : Nat
  name : String
  brand : String
  price : Rat
  image : Option String
deriving DecidableEq, Repr

/-- A row of the `shoe_inventory` table.  The surrogate auto-increment
`id` column is omitted; `size` and `quantity` hold the numeric value the
handler sent (sizes support half sizes, hence `Rat`). -/
structure InvRow where
  shoe_id : Nat
  size : Rat
  quantity : Rat
deriving DecidableEq, Repr

/-- The database state: the two tables plus the `shoes` auto-increment
counter. -/
structure Db where
  shoes : List ShoeRow
  inv : List InvRow
  nextId : Nat
deriving DecidableEq, Repr

/-- Auto-increment well-formedness: every existing shoe id is below the
counter. -/
def dbWF (db : Db) : Prop := ∀ r ∈ db.shoes, r.id < db.nextId

/-- Key match for a `shoe_inventory` row against the natural key
`(shoe_id, size)`. -/
def invKeyMatch (sid : Nat) (size : Rat) (r : InvRow) : Bool :=
  decide (r.shoe_id = sid ∧ r.size = size)

/-- `SELECT ... FROM shoe_inventory WHERE shoe_id = ? AND size = ?`
(first matching row, as `rows[0]` in the handlers). -/
def findInv (db : Db) (sid : Nat) (size : Rat) : Option InvRow :=
  db.inv.find? (invKeyMatch sid size)

/-- `SELECT id FROM shoes WHERE id = ?` viewed as an existence test. -/
def shoeExistsIn (db : Db) (id : Nat) : Bool :=
  db.shoes.any (fun s => s.id = id)

/-- `SELECT * FROM shoes WHERE id = ?` (first matching row). -/
def dbFindShoe (db : Db) (id : Nat) : Option ShoeRow :=
  db.shoes.find? (fun s => s.id = id)

/-! ### JSON response values -/

/-- JSON values appearing in response bodies. -/
inductive J where
  | null
  | num (q : Rat)
  | str (s : String)
  | arr (l : List J)
  | obj (l : List (String × J))

/-- Field lookup in a JSON object body (`none` when the body is not an
object or lacks the field). -/
def jLookup (j : J) (k : String) : Option J :=
  match j with
  | J.obj l => (l.find? (fun p => p.fst = k)).map Prod.snd
  | _ => none

/-- Transport response: status code plus serialized body; `none` is the
empty body the `resp` helpers produce for `null`/`undefined` payloads. -/
structure Resp where
  status : Nat
  body : Option J

def mkResp (status : Nat) (body : Option J) : Resp := ⟨status, body⟩

/-! ### Transient-error classification (`withDb` in `unnamed/part_003`)

The source classifies an error as transient when its message matches
`/PROTOCOL_CONNECTION_LOST|ECONNRESET|ETIMEDOUT|EPIPE|read ECONNRESET|write EPIPE/i`.
That is: case-insensitively, the message contains one of the listed
alternatives as a substring. -/

/-- Boolean list prefix test (over characters). -/
def listPre : List Char → List Char → Bool
  | [], _ => true
  | _ :: _, [] => false
  | a :: as, b :: bs => a = b && listPre as bs

/-- Boolean substring (contiguous) test over character lists. -/
def listSub (needle : List Char) : List Char → Bool
  | [] => listPre needle []
  | c :: rest => listPre needle (c :: rest) || listSub needle rest

/-- Upper-casing of a character list (for the case-insensitive regex flag). -/
def listUp (l : List Char) : List Char := l.map Char.toUpper

/-- String contains `needle` as a substring, case-insensitively. -/
def strSubCI (hay needle : String) : Bool :=
  listSub (listUp needle.data) (listUp hay.data)

def tokConnLost : String := "PROTOCOL_CONNECTION_LOST"
def tokConnReset : String := "ECONNRESET"
def tokTimedOut : String := "ETIMEDOUT"
def tokPipe : String := "EPIPE"
def tokReadReset : String := "read ECONNRESET"
def tokWritePipe : String := "write EPIPE"

/-- The six regex alternatives of the transient test in `withDb`. -/
def transientTokens : List String :=
  [tokConnLost, tokConnReset, tokTimedOut, tokPipe, tokReadReset, tokWritePipe]

/-- Case-insensitive match of the transient-signature regex against an
error message. -/
def isTransientMsg (m : String) : Bool :=
  transientTokens.any (fun t => strSubCI m t)

/-! ### Queries, effects and the connection/transaction monad -/

/-- The SQL statements the modelled handlers issue, tagged with their
bound parameters (recorded in the effect trace). -/
inductive Query where
  | selShoeId (id : Nat)
  | selShoeAll (id : Nat)
  | updShoes (id : Nat)
  | delShoes (id : Nat)
  | delInv (sid : Nat)
  | insInv (rows : List (Nat × Option Rat × Option Rat))
  | insShoes (vals : List (String × String × Option Rat × Option String))
  | upsertAbsQ (sid : Nat) (size : Rat) (q : Rat)
  | upsertAddQ (sid : Nat) (size : Rat) (d : Rat)
  | updClampQ (sid : Nat) (size : Rat) (d : Rat)
  | selInv (sid : Nat) (size : Rat)
deriving DecidableEq, Repr

/-- Whether a query writes (inserts, updates or deletes in) the
`shoe_inventory` table. -/
def writesInventory : Query → Bool
  | Query.delInv _ => true
  | Query.insInv _ => true
  | Query.upsertAbsQ _ _ _ => true
  | Query.upsertAddQ _ _ _ => true
  | Query.updClampQ _ _ _ => true
  | _ => false

/-- Observable effects: acquiring a database connection, or issuing a
query. -/
inductive Eff where
  | connect
  | query (q : Query)
deriving DecidableEq, Repr

/-- The inventory-writing queries recorded in a trace. -/
def invWrites (tr : List Eff) : List Eff :=
  tr.filter (fun e =>
    match e with
    | Eff.connect => false
    | Eff.query q => writesInventory q)

/-- A thrown store error: the index of the failing query and its
message (the message is what the transient test of `withDb` inspects). -/
structure QErr where
  qn : Nat
  message : String
deriving DecidableEq, Repr

/-- Connection-side state threaded through a handler invocation:
current database, transaction snapshot (present between `beginTransaction`
and `commit`/`rollback`), count of issued queries, and effect trace. -/
structure Conn where
  db : Db
  snap : Option Db
  qn : Nat
  tr : List Eff
deriving Repr

/-- Handler computations: state passing over `Conn` with thrown store
errors. -/
def TxM (α : Type) : Type := Conn → Except QErr α × Conn

def txPure (a : α) : TxM α := fun c => (Except.ok a, c)

def txBind (m : TxM α) (f : α → TxM β) : TxM β := fun c =>
  match m c with
  | (Except.ok a, c2) => f a c2
  | (Except.error e, c2) => (Except.error e, c2)

instance : Monad TxM where
  pure := txPure
  bind := txBind

/-- JS `try m catch (e) h(e)`. -/
def txCatch (m : TxM α) (h : QErr → TxM α) : TxM α := fun c =>
  match m c with
  | (Except.ok a, c2) => (Except.ok a, c2)
  | (Except.error e, c2) => h e c2

/-- Re-throw an error. -/
def txThrow (e : QErr) : TxM α := fun c => (Except.error e, c)

/-- External failure oracle: `fail n = some msg` makes the `n`-th query
of the invocation throw with message `msg` (modelling transport and
store failures); `none` lets it run. -/
def Oracle : Type := Nat → Option String

/-- The always-succeeding oracle (a failure-free execution). -/
def noFail : Oracle := fun _ => none

/-- Message used for data errors the store itself raises (e.g. sending
NaN to a numeric column); never transient. -/
def dataErrMsg : String := "Data error"

/-- Issue a query: record it in the trace, consult the oracle, then
apply its semantics `f` to the database.  `f` returns `none` when the
statement itself is a store data error (e.g. a NaN value). -/
def liftQ (fail : Oracle) (tag : Query) (f : Db → Option (Db × α)) : TxM α := fun c =>
  let c1 : Conn := { c with qn := c.qn + 1, tr := c.tr ++ [Eff.query tag] }
  match fail c.qn with
  | some msg => (Except.error ⟨c.qn, msg⟩, c1)
  | none =>
    match f c.db with
    | none => (Except.error ⟨c.qn, dataErrMsg⟩, c1)
    | some (db2, a) => (Except.ok a, { c1 with db := db2 })

/-- `await getConnection()`: acquire (or reuse) the connection; recorded
as an effect. -/
def connectEff : TxM Unit := fun c =>
  (Except.ok (), { c with tr := c.tr ++ [Eff.connect] })

/-- `await conn.beginTransaction()`. -/
def txBegin : TxM Unit := fun c => (Except.ok (), { c with snap := some c.db })

/-- `await conn.commit()`. -/
def txCommit : TxM Unit := fun c => (Except.ok (), { c with snap := none })

/-- `await conn.rollback()`: restore the state at `beginTransaction`. -/
def txRollback : TxM Unit := fun c =>
  (Except.ok (), { c with db := c.snap.getD c.db, snap := none })

/-- Run a handler computation on an initial database (fresh invocation:
no open transaction, empty trace). -/
def runTx (m : TxM α) (db : Db) : Except QErr α × Conn := m ⟨db, none, 0, []⟩

/-! ### SQL statement semantics -/

/-- `DELETE FROM shoes WHERE id = ?`; returns `affectedRows`. -/
def dbDeleteShoes (id : Nat) (db : Db) : Option (Db × Nat) :=
  let affected := (db.shoes.filter (fun s => s.id = id)).length
  some ({ db with shoes := db.shoes.filter (fun s => ¬ s.id = id) }, affected)

/-- `DELETE FROM shoe_inventory WHERE shoe_id = ?`. -/
def dbDeleteInv (sid : Nat) (db : Db) : Option (Db × Unit) :=
  some ({ db with inv := db.inv.filter (fun r => ¬ r.shoe_id = sid) }, ())

/-- All value rows of an inventory insert carry proper numbers (no
NaN). -/
def rowsOk (rows : List (Nat × Option Rat × Option Rat)) : Bool :=
  rows.all (fun r => r.2.1.isSome ∧ r.2.2.isSome)

/-- `INSERT INTO shoe_inventory (shoe_id, size, quantity) VALUES ?` for a
batch of value rows; a NaN size or quantity is a store data error. -/
def dbInsertInv (rows : List (Nat × Option Rat × Option Rat)) (db : Db) :
    Option (Db × Unit) :=
  if rowsOk rows then
    some ({ db with
      inv := db.inv ++ rows.map (fun r => ⟨r.1, r.2.1.getD 0, r.2.2.getD 0⟩) }, ())
  else none

/-- Database after the absolute upsert
`INSERT ... ON DUPLICATE KEY UPDATE quantity = VALUES(quantity)`.
With the `UNIQUE (shoe_id, size)` key there is at most one conflicting
row; the model updates every key-matching row, which agrees with that on
well-keyed states and keeps the statement total. -/
def absUpsertDb (sid : Nat) (size : Rat) (q : Rat) (db : Db) : Db :=
  if db.inv.any (invKeyMatch sid size) then
    { db with
      inv := db.inv.map (fun r =>
        if invKeyMatch sid size r then { r with quantity := q } else r) }
  else { db with inv := db.inv ++ [⟨sid, size, q⟩] }

def dbUpsertAbs (sid : Nat) (size : Rat) (q : Rat) (db : Db) :
    Option (Db × Unit) :=
  some (absUpsertDb sid size q db, ())

/-- Database after the additive upsert
`INSERT ... ON DUPLICATE KEY UPDATE quantity = quantity + VALUES(quantity)`. -/
def addUpsertDb (sid : Nat) (size : Rat) (d : Rat) (db : Db) : Db :=
  if db.inv.any (invKeyMatch sid size) then
    { db with
      inv := db.inv.map (fun r =>
        if invKeyMatch sid size r then { r with quantity := r.quantity + d } else r) }
  else { db with inv := db.inv ++ [⟨sid, size, d⟩] }

def dbUpsertAdd (sid : Nat) (size : Rat) (d : Rat) (db : Db) :
    Option (Db × Unit) :=
  some (addUpsertDb sid size d db, ())

/-- Database after
`UPDATE shoe_inventory SET quantity = GREATEST(0, quantity + ?)
WHERE shoe_id = ? AND size = ?`. -/
def clampDb (sid : Nat) (size : Rat) (d : Rat) (db : Db) : Db :=
  { db with
    inv := db.inv.map (fun r =>
      if invKeyMatch sid size r then { r with quantity := max 0 (r.quantity + d) } else r) }

def dbUpdClamp (sid : Nat) (size : Rat) (d : Rat) (db : Db) :
    Option (Db × Unit) :=
  some (clampDb sid size d db, ())

/-- All value rows of a shoes insert carry a proper numeric price. -/
def valsOk (vals : List (String × String × Option Rat × Option String)) : Bool :=
  vals.all (fun v => v.2.2.1.isSome)

/-- `INSERT INTO shoes (name, brand, price, image) VALUES ?` for a batch;
returns `insertId`, the id generated for the first row (subsequent rows
get consecutive ids, as the handlers assume).  A NaN price is a store
data error. -/
def dbInsertShoes (vals : List (String × String × Option Rat × Option String))
    (db : Db) : Option (Db × Nat) :=
  if valsOk vals then
    some ({ db with
      shoes := db.shoes ++ (List.range vals.length).zipWith
        (fun i v => ⟨db.nextId + i, v.1, v.2.1, v.2.2.1.getD 0, v.2.2.2⟩) vals,
      nextId := db.nextId + vals.length }, db.nextId)
  else none

/-! ### Response bodies and auth helpers -/

def msgKey : String := "message"
def errKey : String := "error"
def invalidJsonMsg : String := "Invalid JSON body"
def forbiddenMsg : String := "Forbidden: admin role required"
def shoeIdRequiredMsg : String := "Shoe ID is required."
def shoeNotFoundMsg : String := "Shoe not found."
def routeNotFoundMsg : String := "Route not found."
def internalErrorMsg : String := "Internal Server Error"
def sizeRequiredMsg : String := "size (number) is required."
def bothMsg : String := "Provide either \"quantity\" or \"delta\", not both."
def neitherMsg : String := "Provide \"quantity\" or \"delta\"."
def quantityNonNegMsg : String := "\"quantity\" must be a non-negative number."
def deltaNumberMsg : String := "\"delta\" must be a number."
def cannotDecrementMsg : String := "Cannot decrement: inventory row does not exist for this size."
def shoeDeletedMsg : String := "Shoe deleted successfully."
def invalidShoeDataMsg : String := "Invalid or missing shoe data."
def seedFailedMsg : String := "Seeding/creation failed."
def seedCountPre : String := "Shoes seeded successfully! Inserted "
def seedCountPost : String := " shoes."

/-- A `{ message: ... }` error body. -/
def msgObj (m : String) : J := J.obj [(msgKey, J.str m)]

/-- A `{ message, error }` 500 body. -/
def errObj (m : String) (e : QErr) : J :=
  J.obj [(msgKey, J.str m), (errKey, J.str e.message)]

/-- The seeding success message with its inserted-count. -/
def seedCountMsg (n : Nat) : String :=
  String.append (String.append seedCountPre (toString n)) seedCountPost

/-- JSON field names of a `shoes` row. -/
def idKey : String := "id"
def nameKey : String := "name"
def brandKey : String := "brand"
def priceKey : String := "price"
def imageKey : String := "image"
def inventoryKey : String := "inventory"
def shoeIdKey : String := "shoe_id"
def sizeKey : String := "size"
def quantityKey : String := "quantity"

/-- Serialization of a `SELECT * FROM shoes` row (note: the shoes-table
columns only — no nested inventory). -/
def shoeRowJ (r : ShoeRow) : J :=
  J.obj [(idKey, J.num r.id), (nameKey, J.str r.name), (brandKey, J.str r.brand),
    (priceKey, J.num r.price),
    (imageKey, match r.image with | some s => J.str s | none => J.null)]

/-- Serialization of a `shoe_inventory` row as the PATCH handler returns
it (the surrogate id column is omitted from the model). -/
def invRowJ (r : InvRow) : J :=
  J.obj [(shoeIdKey, J.num r.shoe_id), (sizeKey, J.num r.size),
    (quantityKey, J.num r.quantity)]

/-- The PATCH fallback body `{ shoe_id, size, quantity: 0 }`. -/
def invZeroJ (sid : Nat) (size : Rat) : J :=
  J.obj [(shoeIdKey, J.num sid), (sizeKey, J.num size), (quantityKey, J.num 0)]

/-- The `cognito:groups` claim: absent, an array of group names, or a
comma-joined string. -/
inductive Groups where
  | absent
  | arr (l : List String)
  | str (s : String)
deriving DecidableEq, Repr

def adminStr : String := "admin"
def commaStr : String := ","

/-- `isAdmin(claims)` from the handlers: false when the claim is absent;
array membership, else split the stringified value on commas. -/
def isAdmin : Groups → Bool
  | Groups.absent => false
  | Groups.arr l => l.contains adminStr
  | Groups.str s => (s.splitOn commaStr).contains adminStr

/-- HTTP methods the routers dispatch on. -/
inductive Method where
  | GET | POST | PUT | PATCH | DELETE | OPTIONS
deriving DecidableEq, Repr

/-! ### PATCH `/shoes/{id}/inventory` (`handlePatchInventory`) -/

/-- Parsed PATCH body; fields the handler reads (absent fields are
`JsVal.undef`). -/
structure PatchBody where
  size : JsVal
  quantity : JsVal
  delta : JsVal
deriving DecidableEq, Repr

/-- The final `SELECT ... FROM shoe_inventory WHERE shoe_id = ? AND
size = ?` and the 200 response (`rows[0]` or the quantity-0 fallback). -/
def patchFinish (fail : Oracle) (shoeId : Nat) (size : Rat) : TxM Resp := do
  let row ← liftQ fail (Query.selInv shoeId size)
    (fun db => some (db, findInv db shoeId size))
  pure (mkResp 200 (some (match row with
    | some r => invRowJ r
    | none => invZeroJ shoeId size)))

/-- The `hasQuantity` branch of the PATCH handler. -/
def patchQuantityBranch (fail : Oracle) (body : PatchBody) (shoeId : Nat)
    (size : Rat) : TxM Resp :=
  match jsToNumber body.quantity with
  | none => pure (mkResp 400 (some (msgObj quantityNonNegMsg)))
  | some q =>
    if q < 0 then pure (mkResp 400 (some (msgObj quantityNonNegMsg)))
    else do
      _ ← liftQ fail (Query.upsertAbsQ shoeId size q) (dbUpsertAbs shoeId size q)
      patchFinish fail shoeId size

/-- The `delta` branch of the PATCH handler. -/
def patchDeltaBranch (fail : Oracle) (body : PatchBody) (shoeId : Nat)
    (size : Rat) : TxM Resp :=
  match jsToNumber body.delta with
  | none => pure (mkResp 400 (some (msgObj deltaNumberMsg)))
  | some delta =>
    if delta > 0 then do
      _ ← liftQ fail (Query.upsertAddQ shoeId size delta) (dbUpsertAdd shoeId size delta)
      patchFinish fail shoeId size
    else if delta < 0 then do
      let cur ← liftQ fail (Query.selInv shoeId size)
        (fun db => some (db, findInv db shoeId size))
      match cur with
      | none => pure (mkResp 400 (some (msgObj cannotDecrementMsg)))
      | some _ => do
        _ ← liftQ fail (Query.updClampQ shoeId size delta) (dbUpdClamp shoeId size delta)
        patchFinish fail shoeId size
    else patchFinish fail shoeId size

/-- `handlePatchInventory(event, shoeId)` from the updateShoes handler:
body validation, shoe-existence check, then absolute upsert / additive
upsert / clamped decrement, then the result select. -/
def handlePatchInventory (fail : Oracle) (body? : Option PatchBody)
    (shoeId : Nat) : TxM Resp :=
  match body? with
  | none => pure (mkResp 400 (some (msgObj invalidJsonMsg)))
  | some body =>
    match jsToNumber body.size with
    | none => pure (mkResp 400 (some (msgObj sizeRequiredMsg)))
    | some size =>
      if hasVal body.quantity ∧ hasVal body.delta then
        pure (mkResp 400 (some (msgObj bothMsg)))
      else if ¬ hasVal body.quantity ∧ ¬ hasVal body.delta then
        pure (mkResp 400 (some (msgObj neitherMsg)))
      else do
        connectEff
        let ex ← liftQ fail (Query.selShoeId shoeId)
          (fun db => some (db, shoeExistsIn db shoeId))
        if ¬ ex then pure (mkResp 404 (some (msgObj shoeNotFoundMsg)))
        else if hasVal body.quantity then
          patchQuantityBranch fail body shoeId size
        else
          patchDeltaBranch fail body shoeId size

/-! ### PUT `/shoes/{id}` (`handlePutUpdate`) -/

/-- One entry of the PUT body `inventory` array (`none` models a falsy
array element, which the row builder skips). -/
structure InvItem where
  size : JsVal
  quantity : JsVal
deriving DecidableEq, Repr

/-- Parsed PUT body.  `name`/`brand` are JSON strings or absent/null
(`String(name)` is then the identity); `price` a JSON number or
absent/null; `image` a string or absent/null; `inventory` present iff
`Array.isArray(inventory)`. -/
structure PutBody where
  name : Option String
  brand : Option String
  price : Option Rat
  image : Option String
  inventory : Option (List (Option InvItem))
deriving DecidableEq, Repr

/-- Whether the dynamic `sets` list is non-empty. -/
def putHasSets (b : PutBody) : Bool :=
  b.name.isSome || b.brand.isSome || b.price.isSome || b.image.isSome

/-- The value pushed for the image field: `image || null`. -/
def imgPush : Option String → Option String
  | some s => if s = "" then none else some s
  | none => none

/-- `UPDATE shoes SET <present fields> WHERE id = ?`; `affectedRows`
is the number of matched rows. -/
def dbUpdateShoe (id : Nat) (b : PutBody) (db : Db) : Option (Db × Nat) :=
  some ({ db with
    shoes := db.shoes.map (fun s =>
      if s.id = id then
        { s with
          name := b.name.getD s.name,
          brand := b.brand.getD s.brand,
          price := b.price.getD s.price,
          image := match b.image with
            | some img => imgPush (some img)
            | none => s.image }
      else s) },
    (db.shoes.filter (fun s => s.id = id)).length)

/-- The `rows` array the PUT handler builds from the submitted inventory:
skip falsy items and items whose `size` is null/undefined; push
`[shoeId, Number(size), Number(quantity || 1)]`. -/
def buildRows (shoeId : Nat) (items : List (Option InvItem)) :
    List (Nat × Option Rat × Option Rat) :=
  items.filterMap (fun it =>
    match it with
    | none => none
    | some item =>
      if hasVal item.size then
        some (shoeId, jsToNumber item.size, jsToNumber (jsOr item.quantity (JsVal.num 1)))
      else none)

/-- The chunked `INSERT INTO shoe_inventory ... VALUES ?` loop
(`batchSize = 10`); the fuel argument bounds the iteration count and is
instantiated with the row count. -/
def insertChunksGo (fail : Oracle) :
    Nat → List (Nat × Option Rat × Option Rat) → TxM Unit
  | 0, _ => pure ()
  | _, [] => pure ()
  | Nat.succ fuel, r :: rest => do
    let batch := (r :: rest).take 10
    _ ← liftQ fail (Query.insInv batch) (dbInsertInv batch)
    insertChunksGo fail fuel ((r :: rest).drop 10)

def insertChunks (fail : Oracle)
    (rows : List (Nat × Option Rat × Option Rat)) : TxM Unit :=
  insertChunksGo fail rows.length rows

/-- The full-inventory replacement step of the PUT handler: when an
inventory array was supplied, delete all rows for the shoe and re-insert
the built rows (chunked). -/
def putReplaceInventory (fail : Oracle) (body : PutBody) (shoeId : Nat) :
    TxM Unit :=
  match body.inventory with
  | some items => do
    _ ← liftQ fail (Query.delInv shoeId) (dbDeleteInv shoeId)
    let rows := buildRows shoeId items
    if rows.length ≠ 0 then insertChunks fail rows else pure ()
  | none => pure ()

/-- Tail of the PUT transaction: inventory replacement, re-fetch of the
shoe row, commit, 200 response. -/
def putInventoryAndFetch (fail : Oracle) (body : PutBody) (shoeId : Nat) :
    TxM Resp := do
  putReplaceInventory fail body shoeId
  let fetched ← liftQ fail (Query.selShoeAll shoeId)
    (fun db => some (db, dbFindShoe db shoeId))
  txCommit
  pure (mkResp 200 (some (match fetched with
    | some r => shoeRowJ r
    | none => J.obj [(idKey, J.num shoeId)])))

/-- The body of the `try` block in the PUT handler: field update (or
existence check), 404-with-rollback when the shoe is missing, inventory
replacement, re-fetch, commit. -/
def putTryBody (fail : Oracle) (body : PutBody) (shoeId : Nat) : TxM Resp :=
  if putHasSets body then do
    let affected ← liftQ fail (Query.updShoes shoeId) (dbUpdateShoe shoeId body)
    if affected = 0 then do
      txRollback
      pure (mkResp 404 (some (msgObj shoeNotFoundMsg)))
    else putInventoryAndFetch fail body shoeId
  else do
    let ex ← liftQ fail (Query.selShoeId shoeId)
      (fun db => some (db, shoeExistsIn db shoeId))
    if ex then putInventoryAndFetch fail body shoeId
    else do
      txRollback
      pure (mkResp 404 (some (msgObj shoeNotFoundMsg)))

/-- `handlePutUpdate(event, shoeId)`: partial field update (or existence
check) and optional full inventory replacement, inside one transaction;
the catch handler rolls back and re-throws. -/
def handlePutUpdate (fail : Oracle) (body? : Option PutBody)
    (shoeId : Nat) : TxM Resp :=
  match body? with
  | none => pure (mkResp 400 (some (msgObj invalidJsonMsg)))
  | some body => do
    connectEff
    txBegin
    txCatch (putTryBody fail body shoeId)
      (fun e => do
        txRollback
        txThrow e)

/-! ### The updateShoes router (OPTIONS short-circuit, admin gate) -/

/-- A normalized updateShoes request: method, role claims, which route
regex the path matches, the extracted path id, and the parsed body for
each route (`none` = JSON parse failure). -/
structure UpdEvent where
  method : Method
  groups : Groups
  patchRoute : Bool
  putRoute : Bool
  pathId : Option Nat
  putBody : Option PutBody
  patchBody : Option PatchBody
deriving Repr

/-- The updateShoes `exports.handler`: OPTIONS preflight short-circuit,
admin check, route dispatch; unhandled errors become 500. -/
def updateShoesHandler (fail : Oracle) (ev : UpdEvent) : TxM Resp :=
  txCatch
    (if ev.method = Method.OPTIONS then pure (mkResp 200 none)
     else if ¬ isAdmin ev.groups then pure (mkResp 403 (some (msgObj forbiddenMsg)))
     else if ev.method = Method.PATCH ∧ ev.patchRoute then
       match ev.pathId with
       | none => pure (mkResp 400 (some (msgObj shoeIdRequiredMsg)))
       | some id => handlePatchInventory fail ev.patchBody id
     else if ev.method = Method.PUT ∧ ev.putRoute then
       match ev.pathId with
       | none => pure (mkResp 400 (some (msgObj shoeIdRequiredMsg)))
       | some id => handlePutUpdate fail ev.putBody id
     else pure (mkResp 404 (some (msgObj routeNotFoundMsg))))
    (fun e => pure (mkResp 500 (some (errObj internalErrorMsg e))))

/-! ### DELETE `/shoes/{id}` (`unnamed/part_003`) -/

/-- `withDb(fn)` at the `TxM` level: obtain a connection, run the
operation; on a transient error discard the cached connection, obtain a
fresh one and run the operation once more; other errors re-throw.  The
cache/identity bookkeeping of `withDb` is verified separately on the
`DbWorld` model below. -/
def withDbTx (fail : Oracle) (op : TxM α) : TxM α := do
  connectEff
  txCatch op (fun e =>
    if isTransientMsg e.message then do
      connectEff
      op
    else txThrow e)

/-- The operation part_003 passes to `withDb` for DELETE `/shoes/{id}`:
one transaction deleting from `shoes` only; `true` means the
`{ notFound: true }` outcome. -/
def part003DeleteOp (fail : Oracle) (shoeId : Nat) : TxM Bool := do
  txBegin
  txCatch
    (do
      let affected ← liftQ fail (Query.delShoes shoeId) (dbDeleteShoes shoeId)
      if affected = 0 then do
        txRollback
        pure true
      else do
        txCommit
        pure false)
    (fun e => do
      txRollback
      txThrow e)

/-- A normalized part_003 request. -/
structure DelEvent where
  method : Method
  groups : Groups
  delRoute : Bool
  pathId : Option Nat
deriving DecidableEq, Repr

/-- The part_003 `exports.handler`: OPTIONS short-circuit, admin check,
then the DELETE route. -/
def part003Handler (fail : Oracle) (ev : DelEvent) : TxM Resp :=
  txCatch
    (if ev.method = Method.OPTIONS then pure (mkResp 200 none)
     else if ¬ isAdmin ev.groups then pure (mkResp 403 (some (msgObj forbiddenMsg)))
     else if ev.method = Method.DELETE ∧ ev.delRoute then
       match ev.pathId with
       | none => pure (mkResp 400 (some (msgObj shoeIdRequiredMsg)))
       | some id => do
         let nf ← withDbTx fail (part003DeleteOp fail id)
         if nf then pure (mkResp 404 (some (msgObj shoeNotFoundMsg)))
         else pure (mkResp 200 (some (msgObj shoeDeletedMsg)))
     else pure (mkResp 404 (some (msgObj routeNotFoundMsg))))
    (fun e => pure (mkResp 500 (some (errObj internalErrorMsg e))))

/-! ### POST `/shoes` (the build seedShoes / create handler) -/

/-- One entry of the `inventory` array of a submitted product. -/
structure SeedInvItem where
  size : JsVal
  quantity : JsVal
deriving DecidableEq, Repr

/-- One submitted product.  `name`/`brand` are JSON strings (possibly
empty), `price` any JSON value, `image` a string or absent/null,
`inventory` present iff it is an array. -/
structure SeedShoe where
  name : String
  brand : String
  price : JsVal
  image : Option String
  inventory : Option (List SeedInvItem)
deriving DecidableEq, Repr

/-- The parsed POST body: either shape A (`shoes` is an array) or the
single-item shape B read from the top-level fields. -/
structure SeedBody where
  shoes : Option (List SeedShoe)
  name : Option String
  brand : Option String
  price : JsVal
  size : JsVal
  image : Option String
  inventory : Option (List SeedInvItem)
deriving DecidableEq, Repr

/-- The shape resolution of the handler: use `body.shoes` when it is an
array; otherwise lift the single-item form when `name && brand &&
price != null`, synthesizing a one-entry inventory from `size` when no
inventory array was given. -/
def resolveShoes (b : SeedBody) : Option (List SeedShoe) :=
  match b.shoes with
  | some l => some l
  | none =>
    match b.name, b.brand with
    | some n, some br =>
      if n ≠ "" ∧ br ≠ "" ∧ hasVal b.price then
        some [⟨n, br, b.price, b.image,
          some (match b.inventory with
            | some inv => inv
            | none =>
              if hasVal b.size then [⟨b.size, JsVal.num 1⟩] else [])⟩]
      else none
    | _, _ => none

/-- The `shoeValues` row for one submitted product:
`[name, brand, Number(price), image || null]`. -/
def seedShoeVal (s : SeedShoe) : String × String × Option Rat × Option String :=
  (s.name, s.brand, jsToNumber s.price, imgPush s.image)

/-- The inventory value rows collected for one inserted batch: for each
product (paired with its generated id), entries with a non-null size as
`[shoeId, Number(size), Number(quantity || 1)]`. -/
def seedInvRows (batch : List SeedShoe) (ids : List Nat) :
    List (Nat × Option Rat × Option Rat) :=
  (batch.zip ids).flatMap (fun p =>
    match p.1.inventory with
    | some items =>
      items.filterMap (fun it =>
        if hasVal it.size then
          some (p.2, jsToNumber it.size, jsToNumber (jsOr it.quantity (JsVal.num 1)))
        else none)
    | none => [])

/-- One iteration of the batch loop of the create handler: insert the batch
of (at most 10) products, re-fetch the created row when the submission
was a single product, then insert the inventory rows of the batch (chunked);
returns the accumulated created-rows list. -/
def seedBatchStep (fail : Oracle) (slen : Nat) (batch : List SeedShoe)
    (created : List ShoeRow) : TxM (List ShoeRow) := do
  let vals := batch.map seedShoeVal
  let insertId ← liftQ fail (Query.insShoes vals) (dbInsertShoes vals)
  let insertedIds := (List.range batch.length).map (fun i => insertId + i)
  let created2 ←
    if slen = 1 then do
      let r ← liftQ fail (Query.selShoeAll insertId)
        (fun db => some (db, dbFindShoe db insertId))
      pure (match r with
        | some row => created ++ [row]
        | none => created)
    else pure created
  insertChunks fail (seedInvRows batch insertedIds)
  pure created2

/-- The body of the `withDb` operation of the create handler: the
chunked insert loop (`batchSize = 10`) accumulating the inserted count
and, for single-product submissions, the re-fetched created row.  The
fuel argument bounds the iteration count and is instantiated with the
number of products. -/
def seedLoopGo (fail : Oracle) (slen : Nat) :
    Nat → List SeedShoe → Nat → List ShoeRow → TxM (Nat × List ShoeRow)
  | 0, _, total, created => pure (total, created)
  | _, [], total, created => pure (total, created)
  | Nat.succ fuel, s :: rest, total, created => do
    let created2 ← seedBatchStep fail slen ((s :: rest).take 10) created
    seedLoopGo fail slen fuel ((s :: rest).drop 10)
      (total + ((s :: rest).take 10).length) created2

/-- The whole `withDb` operation of the create handler. -/
def seedInsertAll (fail : Oracle) (shoes : List SeedShoe) :
    TxM (Nat × List ShoeRow) :=
  seedLoopGo fail shoes.length shoes.length shoes 0 []

/-- A normalized create request. -/
structure SeedEvent where
  method : Method
  groups : Groups
  body : Option SeedBody
deriving Repr

/-- The response selection of the create handler:
`result.createdRows.length === 1 && shoes.length === 1` yields 201 with
the re-fetched created row; otherwise 200 with the inserted count. -/
def seedResp (shoes : List SeedShoe) (total : Nat)
    (createdRows : List ShoeRow) : Resp :=
  match createdRows with
  | [r] =>
    if shoes.length = 1 then mkResp 201 (some (shoeRowJ r))
    else mkResp 200 (some (msgObj (seedCountMsg total)))
  | _ => mkResp 200 (some (msgObj (seedCountMsg total)))

/-- The build seedShoes `exports.handler` (POST `/shoes`): OPTIONS
short-circuit, admin check, body-shape resolution, chunked insert of
products and their inventory, then 201 with the re-fetched single
product or 200 with the inserted count. -/
def seedShoesHandler (fail : Oracle) (ev : SeedEvent) : TxM Resp :=
  txCatch
    (if ev.method = Method.OPTIONS then pure (mkResp 200 none)
     else if ¬ isAdmin ev.groups then pure (mkResp 403 (some (msgObj forbiddenMsg)))
     else match ev.body with
      | none => pure (mkResp 400 (some (msgObj invalidJsonMsg)))
      | some b =>
        match resolveShoes b with
        | none => pure (mkResp 400 (some (msgObj invalidShoeDataMsg)))
        | some shoes =>
          if shoes.length = 0 then
            pure (mkResp 400 (some (msgObj invalidShoeDataMsg)))
          else do
            let result ← withDbTx fail (seedInsertAll fail shoes)
            pure (seedResp shoes result.1 result.2))
    (fun e => pure (mkResp 500 (some (errObj seedFailedMsg e))))

/-! ### The connection manager world (`getConnection` / `withDb`) -/

/-- Process-wide connection state: the cached connection (by identity)
and the next fresh connection identity. -/
structure DbWorld where
  cached : Option Nat
  nextConn : Nat
deriving DecidableEq, Repr

/-- Connection identities are generated below the counter. -/
def dbWorldWF (w : DbWorld) : Prop := ∀ c, w.cached = some c → c < w.nextConn

/-- `getConnection()`: reuse the cached connection when present and its
transport does not report disconnected (`healthy`); otherwise create a
fresh connection and cache it, replacing any prior one. -/
def getConnection (healthy : Nat → Bool) (w : DbWorld) : Nat × DbWorld :=
  match w.cached with
  | some c =>
    if healthy c then (c, w)
    else (w.nextConn, ⟨some w.nextConn, w.nextConn + 1⟩)
  | none => (w.nextConn, ⟨some w.nextConn, w.nextConn + 1⟩)

/-- A store error as `withDb` sees it (only the message is inspected). -/
structure DbError where
  message : String
deriving DecidableEq, Repr

/-- `withDb(fn)` over the connection world.  The operation is modelled
as a function of the attempt index (the external store may behave
differently on the retry) and the connection it is handed.  The result
also reports how many times the operation was invoked. -/
def withDb (healthy : Nat → Bool) (op : Nat → Nat → Except DbError α)
    (w : DbWorld) : Except DbError α × DbWorld × Nat :=
  let (conn, w1) := getConnection healthy w
  match op 0 conn with
  | Except.ok a => (Except.ok a, w1, 1)
  | Except.error e =>
    if isTransientMsg e.message then
      let w2 : DbWorld := ⟨none, w1.nextConn⟩
      let (conn2, w3) := getConnection healthy w2
      (op 1 conn2, w3, 2)
    else (Except.error e, w1, 1)

/-! ## Theorems -/

/-! ### Unfolding helpers for the monad structure -/

theorem txBind_def (m : TxM α) (f : α → TxM β) : m >>= f = txBind m f := rfl

theorem txPure_def (a : α) : (pure a : TxM α) = txPure a := rfl

theorem txBind_apply (m : TxM α) (f : α → TxM β) (c : Conn) :
    txBind m f c =
      match m c with
      | (Except.ok a, c2) => f a c2
      | (Except.error e, c2) => (Except.error e, c2) := rfl

theorem txPure_apply (a : α) (c : Conn) : txPure a c = (Except.ok a, c) := rfl

/-- The simp set used to run a handler computation symbolically. -/
theorem liftQ_noFail (tag : Query) (f : Db → Option (Db × α)) (c : Conn) :
    liftQ noFail tag f c =
      match f c.db with
      | none => (Except.error ⟨c.qn, dataErrMsg⟩,
          { c with qn := c.qn + 1, tr := c.tr ++ [Eff.query tag] })
      | some (db2, a) => (Except.ok a,
          { c with db := db2, qn := c.qn + 1, tr := c.tr ++ [Eff.query tag] }) := by
  unfold liftQ noFail
  match h : f c.db with
  | none => simp
  | some (db2, a) => simp

/-- C6: an operation run through `withDb` whose first invocation fails
with a transient connectivity signature is retried exactly once on a
freshly created connection (the cached one is discarded); a successful
first attempt is not retried, a non-transient error propagates
unmodified with one attempt, and the result of the retried attempt — error or
not — is returned as is with no further retry. -/
theorem withDb_retries_transient_once (healthy : Nat → Bool)
    (op : Nat → Nat → Except DbError α) (w : DbWorld) (hwf : dbWorldWF w) :
    (∀ a, op 0 (getConnection healthy w).1 = Except.ok a →
      withDb healthy op w = (Except.ok a, (getConnection healthy w).2, 1)) ∧
    (∀ e, op 0 (getConnection healthy w).1 = Except.error e →
      (isTransientMsg e.message = false →
        withDb healthy op w = (Except.error e, (getConnection healthy w).2, 1)) ∧
      (isTransientMsg e.message = true →
        withDb healthy op w =
          (op 1 (getConnection healthy w).2.nextConn,
            ⟨some (getConnection healthy w).2.nextConn,
              (getConnection healthy w).2.nextConn + 1⟩, 2) ∧
        (getConnection healthy w).2.nextConn ≠ (getConnection healthy w).1)) := by
  constructor
  · intro a hok
    simp only [withDb, hok]
  · intro e herr
    constructor
    · intro hnt
      simp only [withDb, herr, hnt]
      rfl
    · intro ht
      constructor
      · simp only [withDb, herr, ht]
        rfl
      · unfold getConnection
        match hc : w.cached with
        | none => simp
        | some c =>
          have hlt := hwf c hc
          by_cases hh : healthy c = true
          · simp [hh]
            omega
          · simp [hh]

/-- Concrete operation for the C6 witness: fails with an `ECONNRESET`
message on the first attempt, succeeds on the retry. -/
def wOpC6 : Nat → Nat → Except DbError Nat := fun attempt _ =>
  if attempt = 0 then Except.error ⟨tokConnReset⟩ else Except.ok 7

theorem withDb_retries_transient_once_witness :
    withDb (fun _ => false) wOpC6 ⟨none, 0⟩ = (Except.ok 7, ⟨some 1, 2⟩, 2)
      ∧ (1 : Nat) ≠ 0 := by
  have h := ((withDb_retries_transient_once (fun _ => false) wOpC6 ⟨none, 0⟩
      (fun c hc => by cases hc)).2 ⟨tokConnReset⟩ rfl).2 (by decide)
  exact ⟨h.1, h.2⟩

/-! ### C1: DeleteProduct and dependent inventory rows -/

def nameAirZoom : String := "Air Zoom"
def brandNike : String := "Nike"

/-- Failing input for C1: a store with product 1 and one inventory row
referencing it. -/
def dbC1 : Db := ⟨[⟨1, nameAirZoom, brandNike, 130, none⟩], [⟨1, 9, 3⟩], 2⟩

/-- An authorized DELETE `/shoes/1` request. -/
def evC1 : DelEvent := ⟨Method.DELETE, Groups.arr [adminStr], true, some 1⟩

/-- C1: evaluating the part_003 delete handler at the failing input:
the request succeeds with 200, the product row is gone, yet the
dependent `shoe_inventory` row for product 1 is still present — the
handler issues no delete against `shoe_inventory` (the only statement in
its transaction is `DELETE FROM shoes WHERE id = ?`), contradicting the
claim that it removes dependent rows with an explicit delete. -/
theorem deleteShoe_leaves_inventory_rows :
    (runTx (part003Handler noFail evC1) dbC1).1
        = Except.ok (mkResp 200 (some (msgObj shoeDeletedMsg)))
      ∧ (runTx (part003Handler noFail evC1) dbC1).2.db.shoes = []
      ∧ (runTx (part003Handler noFail evC1) dbC1).2.db.inv = [⟨1, 9, 3⟩]
      ∧ ((runTx (part003Handler noFail evC1) dbC1).2.tr.filter
            (fun e => decide (e = Eff.query (Query.delInv 1)))) = [] :=
  ⟨rfl, rfl, rfl, rfl⟩

/-! ### C10: PatchInventory with delta 0 -/

/-- C10: a PATCH with `{delta: 0}` on an existing product issues only
the two selects — no insert or update touches the inventory table, the
database is unchanged, and the response is 200 with the current
`(productId, size)` row, or with quantity 0 when no such row exists. -/
theorem patch_delta_zero_reads_only (db : Db) (sid : Nat) (sz : Rat)
    (h : shoeExistsIn db sid = true) :
    runTx (handlePatchInventory noFail
        (some ⟨JsVal.num sz, JsVal.undef, JsVal.num 0⟩) sid) db
      = (Except.ok (mkResp 200 (some (match findInv db sid sz with
            | some r => invRowJ r
            | none => invZeroJ sid sz))),
          ⟨db, none, 2, [Eff.connect, Eff.query (Query.selShoeId sid),
            Eff.query (Query.selInv sid sz)]⟩)
      ∧ invWrites (runTx (handlePatchInventory noFail
          (some ⟨JsVal.num sz, JsVal.undef, JsVal.num 0⟩) sid) db).2.tr = [] := by
  have hrun : runTx (handlePatchInventory noFail
      (some ⟨JsVal.num sz, JsVal.undef, JsVal.num 0⟩) sid) db
      = (Except.ok (mkResp 200 (some (match findInv db sid sz with
            | some r => invRowJ r
            | none => invZeroJ sid sz))),
          ⟨db, none, 2, [Eff.connect, Eff.query (Query.selShoeId sid),
            Eff.query (Query.selInv sid sz)]⟩) := by
    unfold handlePatchInventory patchDeltaBranch patchFinish runTx
    simp [txBind_def, txPure_def, txBind, txPure, connectEff, liftQ_noFail,
      noFail, jsToNumber, hasVal, h, liftQ]
  refine ⟨hrun, ?_⟩
  rw [hrun]
  simp [invWrites, writesInventory]

/-- C10 witness at a concrete store (product 1 with a size-9 row). -/
theorem patch_delta_zero_reads_only_witness :
    runTx (handlePatchInventory noFail
        (some ⟨JsVal.num 9, JsVal.undef, JsVal.num 0⟩) 1) dbC1
      = (Except.ok (mkResp 200 (some (invRowJ ⟨1, 9, 3⟩))),
          ⟨dbC1, none, 2, [Eff.connect, Eff.query (Query.selShoeId 1),
            Eff.query (Query.selInv 1 9)]⟩) :=
  (patch_delta_zero_reads_only dbC1 1 9 rfl).1

/-! ### Facts about key-preserving inventory rewrites -/

/-- Quantity rewrites do not change the natural key of a row. -/
theorem invKeyMatch_setQ (sid : Nat) (sz : Rat) (r : InvRow) (x : Rat) :
    invKeyMatch sid sz { r with quantity := x } = invKeyMatch sid sz r := rfl

/-- `find?` over a list rewritten only at matching elements returns the
rewritten found element, provided the rewrite preserves the predicate. -/
theorem find?_map_matching (p : α → Bool) (f : α → α)
    (hf : ∀ a, p (f a) = p a) :
    ∀ l : List α,
      (l.map (fun a => if p a then f a else a)).find? p = (l.find? p).map f := by
  intro l
  induction l with
  | nil => rfl
  | cons x xs ih =>
    by_cases hx : p x = true
    · simp [List.find?, hx, hf]
    · simp only [List.map_cons]
      rw [if_neg (by simp [hx])]
      rw [List.find?_cons_of_neg _ (by simp [hx]),
        List.find?_cons_of_neg _ (by simp [hx])]
      exact ih

/-- After rewriting every matching element, every matching element of
the result is a rewrite image (specialized to quantity-setting). -/
theorem mem_map_setQ_quantity (sid : Nat) (sz q : Rat) :
    ∀ l : List InvRow,
      ∀ r ∈ l.map (fun r =>
        if invKeyMatch sid sz r then { r with quantity := q } else r),
        invKeyMatch sid sz r = true → r.quantity = q := by
  intro l
  induction l with
  | nil => intro r hr; cases hr
  | cons x xs ih =>
    intro r hr hkey
    rcases List.mem_cons.mp hr with h | h
    · by_cases hx : invKeyMatch sid sz x = true
      · simp [hx] at h
        rw [h]
      · simp [hx] at h
        rw [h] at hkey
        exact absurd hkey hx
    · exact ih r h hkey

/-- Setting the quantity of every matching row is the identity when all
matching rows already carry that quantity. -/
theorem map_setQ_id (sid : Nat) (sz q : Rat) :
    ∀ l : List InvRow, (∀ r ∈ l, invKeyMatch sid sz r = true → r.quantity = q) →
      l.map (fun r =>
        if invKeyMatch sid sz r then { r with quantity := q } else r) = l := by
  intro l
  induction l with
  | nil => intro _; rfl
  | cons x xs ih =>
    intro hall
    simp only [List.map_cons]
    rw [ih (fun r hr => hall r (List.mem_cons_of_mem x hr))]
    by_cases hx : invKeyMatch sid sz x = true
    · rw [if_pos hx]
      have hq := hall x (List.mem_cons_self x xs) hx
      rw [← hq]
    · rw [if_neg hx]

/-- `any` is preserved by quantity-setting rewrites. -/
theorem any_map_setQ (sid : Nat) (sz : Rat) (f : InvRow → InvRow)
    (hf : ∀ r, invKeyMatch sid sz (f r) = invKeyMatch sid sz r) :
    ∀ l : List InvRow,
      (l.map (fun r => if invKeyMatch sid sz r then f r else r)).any
          (invKeyMatch sid sz)
        = l.any (invKeyMatch sid sz) := by
  intro l
  induction l with
  | nil => rfl
  | cons x xs ih =>
    by_cases hx : invKeyMatch sid sz x = true
    · simp [List.any_cons, hx, hf]
    · simp only [List.map_cons]
      rw [if_neg (by simp [hx])]
      simp [List.any_cons, hx, ih]

/-! ### C2: PatchInventory with negative delta -/

/-- Run of the PATCH handler for a negative delta when no
`(productId, size)` row exists: 400 and only the two selects. -/
theorem patch_neg_delta_absent_run (db : Db) (sid : Nat) (sz d : Rat)
    (hsh : shoeExistsIn db sid = true) (hd : d < 0)
    (habs : findInv db sid sz = none) :
    runTx (handlePatchInventory noFail
        (some ⟨JsVal.num sz, JsVal.undef, JsVal.num d⟩) sid) db
      = (Except.ok (mkResp 400 (some (msgObj cannotDecrementMsg))),
          ⟨db, none, 2, [Eff.connect, Eff.query (Query.selShoeId sid),
            Eff.query (Query.selInv sid sz)]⟩) := by
  have hngt : ¬ (d > 0) := not_lt.mpr hd.le
  unfold handlePatchInventory patchDeltaBranch patchFinish runTx
  simp [txBind_def, txPure_def, txBind, txPure, connectEff, liftQ_noFail,
    noFail, jsToNumber, hasVal, hsh, hd, hngt, habs, liftQ]

/-- Run of the PATCH handler for a negative delta when the row exists:
the clamped update and 200 with the clamped row. -/
theorem patch_neg_delta_present_run (db : Db) (sid : Nat) (sz d : Rat)
    (r0 : InvRow) (hsh : shoeExistsIn db sid = true) (hd : d < 0)
    (hfound : findInv db sid sz = some r0) :
    runTx (handlePatchInventory noFail
        (some ⟨JsVal.num sz, JsVal.undef, JsVal.num d⟩) sid) db
      = (Except.ok (mkResp 200 (some (invRowJ
            { r0 with quantity := max 0 (r0.quantity + d) }))),
          ⟨clampDb sid sz d db, none, 4,
            [Eff.connect, Eff.query (Query.selShoeId sid),
              Eff.query (Query.selInv sid sz),
              Eff.query (Query.updClampQ sid sz d),
              Eff.query (Query.selInv sid sz)]⟩) := by
  have hngt : ¬ (d > 0) := not_lt.mpr hd.le
  have hsel : findInv (clampDb sid sz d db) sid sz
      = some { r0 with quantity := max 0 (r0.quantity + d) } := by
    unfold findInv clampDb
    rw [find?_map_matching (invKeyMatch sid sz)
      (fun r => { r with quantity := max 0 (r.quantity + d) })
      (fun a => invKeyMatch_setQ sid sz a _) db.inv]
    have : db.inv.find? (invKeyMatch sid sz) = some r0 := hfound
    rw [this]
    rfl
  unfold handlePatchInventory patchDeltaBranch patchFinish runTx
  simp [txBind_def, txPure_def, txBind, txPure, connectEff, liftQ_noFail,
    noFail, jsToNumber, hasVal, hsh, hd, hngt, hfound, liftQ, dbUpdClamp, hsel]

/-- C2: a PATCH with a negative delta on an existing product fails with
400 and writes nothing when no `(productId, size)` row exists, for any
magnitude of the delta; when the row exists the 200 response carries the
clamped quantity and the stored quantity becomes `max 0 (quantity + d)`
(never negative). -/
theorem patch_negative_delta_clamps (db : Db) (sid : Nat) (sz d : Rat)
    (hsh : shoeExistsIn db sid = true) (hd : d < 0) :
    (findInv db sid sz = none →
      runTx (handlePatchInventory noFail
          (some ⟨JsVal.num sz, JsVal.undef, JsVal.num d⟩) sid) db
        = (Except.ok (mkResp 400 (some (msgObj cannotDecrementMsg))),
            ⟨db, none, 2, [Eff.connect, Eff.query (Query.selShoeId sid),
              Eff.query (Query.selInv sid sz)]⟩)) ∧
    (∀ r0, findInv db sid sz = some r0 →
      runTx (handlePatchInventory noFail
          (some ⟨JsVal.num sz, JsVal.undef, JsVal.num d⟩) sid) db
        = (Except.ok (mkResp 200 (some (invRowJ
              { r0 with quantity := max 0 (r0.quantity + d) }))),
            ⟨clampDb sid sz d db, none, 4,
              [Eff.connect, Eff.query (Query.selShoeId sid),
                Eff.query (Query.selInv sid sz),
                Eff.query (Query.updClampQ sid sz d),
                Eff.query (Query.selInv sid sz)]⟩)) :=
  ⟨fun habs => patch_neg_delta_absent_run db sid sz d hsh hd habs,
    fun r0 hfound => patch_neg_delta_present_run db sid sz d r0 hsh hd hfound⟩

def dbC2 : Db := ⟨[⟨2, nameAirZoom, brandNike, 50, none⟩], [], 3⟩

/-- C2 witness: decrementing size 8 by 100 on product 2, which has no
inventory rows, yields 400 and leaves the store untouched. -/
theorem patch_negative_delta_clamps_witness :
    runTx (handlePatchInventory noFail
        (some ⟨JsVal.num 8, JsVal.undef, JsVal.num (-100)⟩) 2) dbC2
      = (Except.ok (mkResp 400 (some (msgObj cannotDecrementMsg))),
          ⟨dbC2, none, 2, [Eff.connect, Eff.query (Query.selShoeId 2),
            Eff.query (Query.selInv 2 8)]⟩) :=
  (patch_negative_delta_clamps dbC2 2 8 (-100) rfl (by norm_num)).1 rfl

/-! ### C8: PatchInventory absolute mode is an idempotent upsert -/

theorem absUpsert_shoes (sid : Nat) (sz q : Rat) (db : Db) :
    (absUpsertDb sid sz q db).shoes = db.shoes := by
  unfold absUpsertDb
  split <;> rfl

theorem absUpsert_nextId (sid : Nat) (sz q : Rat) (db : Db) :
    (absUpsertDb sid sz q db).nextId = db.nextId := by
  unfold absUpsertDb
  split <;> rfl

/-- After an absolute upsert every `(sid, size)` row carries the written
quantity. -/
theorem absUpsert_allQ (sid : Nat) (sz q : Rat) (db : Db) :
    ∀ r ∈ (absUpsertDb sid sz q db).inv, invKeyMatch sid sz r = true →
      r.quantity = q := by
  by_cases hany : db.inv.any (invKeyMatch sid sz) = true
  · unfold absUpsertDb
    rw [if_pos hany]
    intro r hr hk
    exact mem_map_setQ_quantity sid sz q db.inv r hr hk
  · unfold absUpsertDb
    rw [if_neg hany]
    intro r hr hk
    rcases List.mem_append.mp hr with h | h
    · exact absurd (List.any_eq_true.mpr ⟨r, h, hk⟩) hany
    · rw [List.mem_singleton.mp h]

/-- After an absolute upsert an `(sid, size)` row exists. -/
theorem absUpsert_any (sid : Nat) (sz q : Rat) (db : Db) :
    (absUpsertDb sid sz q db).inv.any (invKeyMatch sid sz) = true := by
  by_cases hany : db.inv.any (invKeyMatch sid sz) = true
  · unfold absUpsertDb
    rw [if_pos hany]
    rw [any_map_setQ sid sz (fun r => { r with quantity := q })
      (fun r => invKeyMatch_setQ sid sz r q) db.inv]
    exact hany
  · unfold absUpsertDb
    rw [if_neg hany]
    simp [List.any_append, invKeyMatch]

/-- An absolute upsert is the identity when a keyed row exists and all
keyed rows already have the written quantity. -/
theorem absUpsert_id (sid : Nat) (sz q : Rat) (db : Db)
    (hany : db.inv.any (invKeyMatch sid sz) = true)
    (hall : ∀ r ∈ db.inv, invKeyMatch sid sz r = true → r.quantity = q) :
    absUpsertDb sid sz q db = db := by
  unfold absUpsertDb
  rw [if_pos hany, map_setQ_id sid sz q db.inv hall]

/-- Run of the PATCH handler in absolute mode on an existing product. -/
theorem patch_quantity_run (db : Db) (sid : Nat) (sz q : Rat)
    (hsh : shoeExistsIn db sid = true) (hq : 0 ≤ q) :
    runTx (handlePatchInventory noFail
        (some ⟨JsVal.num sz, JsVal.num q, JsVal.undef⟩) sid) db
      = (Except.ok (mkResp 200 (some
            (match findInv (absUpsertDb sid sz q db) sid sz with
              | some r => invRowJ r
              | none => invZeroJ sid sz))),
          ⟨absUpsertDb sid sz q db, none, 3,
            [Eff.connect, Eff.query (Query.selShoeId sid),
              Eff.query (Query.upsertAbsQ sid sz q),
              Eff.query (Query.selInv sid sz)]⟩) := by
  have hnlt : ¬ (q < 0) := not_lt.mpr hq
  unfold handlePatchInventory patchQuantityBranch patchFinish runTx
  simp [txBind_def, txPure_def, txBind, txPure, connectEff, liftQ_noFail,
    noFail, jsToNumber, hasVal, hsh, hnlt, liftQ, dbUpsertAbs]

/-- C8: PatchInventory in absolute mode upserts on `(productId, size)`
and is idempotent: after one call every keyed row has quantity `q` and a
keyed row exists; a second identical call leaves the database exactly as
after the first (quantity `q`, not `2q`) and returns the same
response. -/
theorem patch_absolute_upsert_idempotent (db : Db) (sid : Nat) (sz q : Rat)
    (hsh : shoeExistsIn db sid = true) (hq : 0 ≤ q) :
    (∀ r ∈ (runTx (handlePatchInventory noFail
          (some ⟨JsVal.num sz, JsVal.num q, JsVal.undef⟩) sid) db).2.db.inv,
        invKeyMatch sid sz r = true → r.quantity = q) ∧
    ((runTx (handlePatchInventory noFail
          (some ⟨JsVal.num sz, JsVal.num q, JsVal.undef⟩) sid) db).2.db.inv.any
        (invKeyMatch sid sz) = true) ∧
    (runTx (handlePatchInventory noFail
          (some ⟨JsVal.num sz, JsVal.num q, JsVal.undef⟩) sid)
        ((runTx (handlePatchInventory noFail
            (some ⟨JsVal.num sz, JsVal.num q, JsVal.undef⟩) sid) db).2.db)).2.db
      = (runTx (handlePatchInventory noFail
          (some ⟨JsVal.num sz, JsVal.num q, JsVal.undef⟩) sid) db).2.db ∧
    (runTx (handlePatchInventory noFail
          (some ⟨JsVal.num sz, JsVal.num q, JsVal.undef⟩) sid)
        ((runTx (handlePatchInventory noFail
            (some ⟨JsVal.num sz, JsVal.num q, JsVal.undef⟩) sid) db).2.db)).1
      = (runTx (handlePatchInventory noFail
          (some ⟨JsVal.num sz, JsVal.num q, JsVal.undef⟩) sid) db).1 := by
  have h1 := patch_quantity_run db sid sz q hsh hq
  have hsh1 : shoeExistsIn (absUpsertDb sid sz q db) sid = true := by
    unfold shoeExistsIn
    rw [absUpsert_shoes]
    exact hsh
  have h2 := patch_quantity_run (absUpsertDb sid sz q db) sid sz q hsh1 hq
  have hid : absUpsertDb sid sz q (absUpsertDb sid sz q db)
      = absUpsertDb sid sz q db :=
    absUpsert_id sid sz q (absUpsertDb sid sz q db)
      (absUpsert_any sid sz q db) (absUpsert_allQ sid sz q db)
  rw [h1]
  dsimp only
  rw [h2]
  dsimp only
  rw [hid]
  exact ⟨absUpsert_allQ sid sz q db, absUpsert_any sid sz q db, rfl, rfl⟩

/-- C8 witness: setting quantity 5 for size 9 of product 1 twice leaves
the database exactly as after the first call. -/
theorem patch_absolute_upsert_idempotent_witness :
    (runTx (handlePatchInventory noFail
        (some ⟨JsVal.num 9, JsVal.num 5, JsVal.undef⟩) 1)
        ((runTx (handlePatchInventory noFail
            (some ⟨JsVal.num 9, JsVal.num 5, JsVal.undef⟩) 1) dbC1).2.db)).2.db
      = (runTx (handlePatchInventory noFail
          (some ⟨JsVal.num 9, JsVal.num 5, JsVal.undef⟩) 1) dbC1).2.db :=
  (patch_absolute_upsert_idempotent dbC1 1 9 5 rfl (by norm_num)).2.2.1

/-! ### C7: admin gate and OPTIONS short-circuit -/

/-- C7: in each of the three mutating handlers (update/patch router,
part_003 delete router, create handler), a non-OPTIONS request without
the admin group is answered 403 with the final connection state equal to
the initial one — no connection acquired, no query issued, database
unchanged; and an OPTIONS preflight is answered 200 with an empty body
and no effects, regardless of the claims. -/
theorem mutating_without_admin_rejected_before_connection
    (fail : Oracle) (db : Db) (uev : UpdEvent) (dev : DelEvent)
    (sev : SeedEvent) :
    (uev.method ≠ Method.OPTIONS → isAdmin uev.groups = false →
      runTx (updateShoesHandler fail uev) db
        = (Except.ok (mkResp 403 (some (msgObj forbiddenMsg))),
            ⟨db, none, 0, []⟩)) ∧
    (dev.method ≠ Method.OPTIONS → isAdmin dev.groups = false →
      runTx (part003Handler fail dev) db
        = (Except.ok (mkResp 403 (some (msgObj forbiddenMsg))),
            ⟨db, none, 0, []⟩)) ∧
    (sev.method ≠ Method.OPTIONS → isAdmin sev.groups = false →
      runTx (seedShoesHandler fail sev) db
        = (Except.ok (mkResp 403 (some (msgObj forbiddenMsg))),
            ⟨db, none, 0, []⟩)) ∧
    (uev.method = Method.OPTIONS →
      runTx (updateShoesHandler fail uev) db
        = (Except.ok (mkResp 200 none), ⟨db, none, 0, []⟩)) ∧
    (dev.method = Method.OPTIONS →
      runTx (part003Handler fail dev) db
        = (Except.ok (mkResp 200 none), ⟨db, none, 0, []⟩)) ∧
    (sev.method = Method.OPTIONS →
      runTx (seedShoesHandler fail sev) db
        = (Except.ok (mkResp 200 none), ⟨db, none, 0, []⟩)) := by
  refine ⟨fun hm ha => ?_, fun hm ha => ?_, fun hm ha => ?_,
    fun hm => ?_, fun hm => ?_, fun hm => ?_⟩
  · simp [updateShoesHandler, runTx, txCatch, txPure, txPure_def, hm, ha]
  · simp [part003Handler, runTx, txCatch, txPure, txPure_def, hm, ha]
  · simp [seedShoesHandler, runTx, txCatch, txPure, txPure_def, hm, ha]
  · simp [updateShoesHandler, runTx, txCatch, txPure, txPure_def, hm]
  · simp [part003Handler, runTx, txCatch, txPure, txPure_def, hm]
  · simp [seedShoesHandler, runTx, txCatch, txPure, txPure_def, hm]

def userStr : String := "user"

def uevC7 : UpdEvent := ⟨Method.PUT, Groups.absent, false, true, some 1, none, none⟩
def devC7 : DelEvent := ⟨Method.DELETE, Groups.arr [userStr], true, some 1⟩
def sevC7 : SeedEvent := ⟨Method.POST, Groups.absent, none⟩
def uevOpt : UpdEvent := ⟨Method.OPTIONS, Groups.absent, false, false, none, none, none⟩

/-- C7 witness: a non-admin PUT, DELETE and POST each yield a
side-effect-free 403 on a concrete store, and an OPTIONS preflight
yields an empty-bodied 200. -/
theorem mutating_without_admin_rejected_witness :
    runTx (updateShoesHandler noFail uevC7) dbC1
        = (Except.ok (mkResp 403 (some (msgObj forbiddenMsg))),
            ⟨dbC1, none, 0, []⟩)
      ∧ runTx (part003Handler noFail devC7) dbC1
        = (Except.ok (mkResp 403 (some (msgObj forbiddenMsg))),
            ⟨dbC1, none, 0, []⟩)
      ∧ runTx (seedShoesHandler noFail sevC7) dbC1
        = (Except.ok (mkResp 403 (some (msgObj forbiddenMsg))),
            ⟨dbC1, none, 0, []⟩)
      ∧ runTx (updateShoesHandler noFail uevOpt) dbC1
        = (Except.ok (mkResp 200 none), ⟨dbC1, none, 0, []⟩) := by
  have h := mutating_without_admin_rejected_before_connection noFail dbC1
    uevC7 devC7 sevC7
  have h2 := mutating_without_admin_rejected_before_connection noFail dbC1
    uevOpt devC7 sevC7
  exact ⟨h.1 (by decide) rfl, h.2.1 (by decide) (by decide),
    h.2.2.1 (by decide) rfl, h2.2.2.2.1 rfl⟩

/-! ### C3: UpdateProduct rolls back on any in-transaction error -/

/-- A computation that leaves the transaction snapshot untouched on
every exit. -/
def SnapPres (m : TxM α) : Prop :=
  ∀ c r c2, m c = (r, c2) → c2.snap = c.snap

/-- A computation that leaves the transaction snapshot untouched on
every error exit. -/
def SnapSafe (m : TxM α) : Prop :=
  ∀ c e c2, m c = (Except.error e, c2) → c2.snap = c.snap

theorem snapPres_liftQ (fail : Oracle) (tag : Query)
    (f : Db → Option (Db × α)) : SnapPres (liftQ fail tag f) := by
  intro c r c2 h
  unfold liftQ at h
  match hf : fail c.qn with
  | some msg =>
    rw [hf] at h
    cases h
    rfl
  | none =>
    rw [hf] at h
    match hg : f c.db with
    | none =>
      rw [hg] at h
      cases h
      rfl
    | some (db2, a) =>
      rw [hg] at h
      cases h
      rfl

theorem snapPres_txPure (a : α) : SnapPres (txPure a) := by
  intro c r c2 h
  cases h
  rfl

theorem snapPres_bind (m : TxM α) (f : α → TxM β)
    (hm : SnapPres m) (hf : ∀ a, SnapPres (f a)) : SnapPres (txBind m f) := by
  intro c r c2 h
  unfold txBind at h
  rcases hmc : m c with ⟨r1, cm⟩
  rw [hmc] at h
  have hsm : cm.snap = c.snap := hm c r1 cm hmc
  cases r1 with
  | ok a =>
    simp only at h
    rw [hf a cm r c2 h, hsm]
  | error e1 =>
    simp only at h
    cases h
    exact hsm

theorem snapSafe_of_pres (m : TxM α) (hm : SnapPres m) : SnapSafe m :=
  fun c e c2 h => hm c _ c2 h

theorem snapSafe_bind (m : TxM α) (f : α → TxM β)
    (hm : SnapPres m) (hf : ∀ a, SnapSafe (f a)) : SnapSafe (txBind m f) := by
  intro c e c2 h
  unfold txBind at h
  rcases hmc : m c with ⟨r1, cm⟩
  rw [hmc] at h
  have hsm : cm.snap = c.snap := hm c r1 cm hmc
  cases r1 with
  | ok a =>
    simp only at h
    rw [hf a cm e c2 h, hsm]
  | error e1 =>
    simp only at h
    cases h
    exact hsm

/-- A rollback followed by a pure response never errors (the 404 exits
of the try block). -/
theorem snapSafe_rollback_pure (r : Resp) :
    SnapSafe (txBind txRollback (fun _ => txPure r)) := by
  intro c e c2 h
  unfold txBind txRollback txPure at h
  cases h

/-- Commit followed by a pure response never errors. -/
theorem snapSafe_commit_pure (r : Resp) :
    SnapSafe (txBind txCommit (fun _ => txPure r)) := by
  intro c e c2 h
  unfold txBind txCommit txPure at h
  cases h

theorem snapPres_insertChunksGo (fail : Oracle) :
    ∀ (fuel : Nat) (rows : List (Nat × Option Rat × Option Rat)),
      SnapPres (insertChunksGo fail fuel rows) := by
  intro fuel
  induction fuel with
  | zero =>
    intro rows
    match rows with
    | [] => exact snapPres_txPure ()
    | r :: rest => exact snapPres_txPure ()
  | succ n ih =>
    intro rows
    match rows with
    | [] => exact snapPres_txPure ()
    | r :: rest =>
      exact snapPres_bind _ _ (snapPres_liftQ fail _ _) (fun _ => ih _)

theorem snapPres_putReplaceInventory (fail : Oracle) (body : PutBody)
    (sid : Nat) : SnapPres (putReplaceInventory fail body sid) := by
  unfold putReplaceInventory
  match body.inventory with
  | none => exact snapPres_txPure ()
  | some items =>
    simp only [txBind_def, txPure_def]
    apply snapPres_bind _ _ (snapPres_liftQ fail _ _)
    intro a
    by_cases hl : (buildRows sid items).length ≠ 0
    · rw [if_pos hl]
      unfold insertChunks
      exact snapPres_insertChunksGo fail _ _
    · rw [if_neg hl]
      exact snapPres_txPure ()

theorem snapSafe_putInventoryAndFetch (fail : Oracle) (body : PutBody)
    (sid : Nat) : SnapSafe (putInventoryAndFetch fail body sid) := by
  unfold putInventoryAndFetch
  simp only [txBind_def, txPure_def]
  apply snapSafe_bind _ _ (snapPres_putReplaceInventory fail body sid)
  intro _
  apply snapSafe_bind _ _ (snapPres_liftQ fail _ _)
  intro fetched
  exact snapSafe_commit_pure _

/-- The whole try block is snapshot-safe: whenever it exits with an
error, the snapshot taken at `beginTransaction` is still in place. -/
theorem snapSafe_putTryBody (fail : Oracle) (body : PutBody) (sid : Nat) :
    SnapSafe (putTryBody fail body sid) := by
  unfold putTryBody
  by_cases hs : putHasSets body = true
  · rw [if_pos hs]
    simp only [txBind_def, txPure_def]
    apply snapSafe_bind _ _ (snapPres_liftQ fail _ _)
    intro affected
    by_cases ha : affected = 0
    · rw [if_pos ha]
      exact snapSafe_rollback_pure _
    · rw [if_neg ha]
      exact snapSafe_putInventoryAndFetch fail body sid
  · rw [if_neg hs]
    simp only [txBind_def, txPure_def]
    apply snapSafe_bind _ _ (snapPres_liftQ fail _ _)
    intro ex
    by_cases he : ex = true
    · simp only [he, if_true]
      exact snapSafe_putInventoryAndFetch fail body sid
    · simp only [he, if_false]
      exact snapSafe_rollback_pure _

/-- C3: whenever `handlePutUpdate` propagates an error — from the field
update, the existence check, the inventory delete, any chunked
re-insert, or the re-fetch, under an arbitrary failure oracle — the
rollback in its catch handler has restored the database to its pre-call
state. -/
theorem putUpdate_error_rolls_back (fail : Oracle) (body? : Option PutBody)
    (sid : Nat) (db : Db) (e : QErr) (c2 : Conn)
    (h : runTx (handlePutUpdate fail body? sid) db = (Except.error e, c2)) :
    c2.db = db := by
  match body? with
  | none =>
    unfold handlePutUpdate runTx at h
    simp [txPure_def, txPure] at h
  | some body =>
    have hsafe := snapSafe_putTryBody fail body sid
    unfold handlePutUpdate runTx at h
    simp only [txBind_def, txBind, connectEff, txBegin, List.nil_append] at h
    unfold txCatch at h
    rcases hrun : putTryBody fail body sid
        ⟨db, some db, 0, [Eff.connect]⟩ with ⟨r, cE⟩
    rw [hrun] at h
    cases r with
    | ok a => simp at h
    | error e2 =>
      have hsnap : cE.snap = some db :=
        hsafe ⟨db, some db, 0, [Eff.connect]⟩ e2 cE hrun
      simp only [txBind, txRollback, txThrow] at h
      have hc2 : ({ cE with db := cE.snap.getD cE.db, snap := none } : Conn) = c2 :=
        congrArg Prod.snd h
      rw [← hc2]
      simp [hsnap]

/-- Oracle that fails the first query of the invocation. -/
def failFirst : Oracle := fun n => if n = 0 then some tokTimedOut else none

def putBodyC3 : PutBody := ⟨some nameAirZoom, none, none, none, none⟩

/-- C3 witness: with the first in-transaction query throwing, the PUT
handler propagates the error and the database equals its pre-call
state. -/
theorem putUpdate_error_rolls_back_witness :
    (runTx (handlePutUpdate failFirst (some putBodyC3) 1) dbC1).2.db = dbC1 := by
  have hrun : runTx (handlePutUpdate failFirst (some putBodyC3) 1) dbC1
      = (Except.error ⟨0, tokTimedOut⟩,
          ⟨dbC1, none, 1, [Eff.connect, Eff.query (Query.updShoes 1)]⟩) := rfl
  have h2 := putUpdate_error_rolls_back failFirst (some putBodyC3) 1 dbC1
    ⟨0, tokTimedOut⟩
    ⟨dbC1, none, 1, [Eff.connect, Eff.query (Query.updShoes 1)]⟩ hrun
  exact (congrArg (fun p => p.2.db) hrun).trans h2

/-! ### C9: `quantity || 1` in the PUT inventory replacement -/

/-- C9 (amended): in the PUT inventory replacement, an entry whose size
is non-null and whose quantity is absent, null, or the number 0 is
inserted with quantity 1 (the `quantity || 1` coercion); truthy values
are kept as-is, so this does not extend to truthy strings coercing to
0. -/
theorem buildRows_defaults_falsy_quantity_to_one (sid : Nat)
    (items : List (Option InvItem)) (item : InvItem)
    (hmem : some item ∈ items) (hsize : hasVal item.size = true)
    (hq : item.quantity = JsVal.undef ∨ item.quantity = JsVal.null ∨
      item.quantity = JsVal.num 0) :
    (sid, jsToNumber item.size, some 1) ∈ buildRows sid items := by
  unfold buildRows
  apply List.mem_filterMap.mpr
  refine ⟨some item, hmem, ?_⟩
  rcases hq with h | h | h <;>
    simp [h, hsize, jsOr, truthy, jsToNumber]

/-- C9 witness: an entry with a null quantity enters the insert rows
with quantity 1. -/
theorem buildRows_defaults_falsy_quantity_to_one_witness :
    ((1 : Nat), jsToNumber (JsVal.num 9), some (1 : Rat))
      ∈ buildRows 1 [some ⟨JsVal.num 9, JsVal.null⟩] :=
  buildRows_defaults_falsy_quantity_to_one 1 [some ⟨JsVal.num 9, JsVal.null⟩]
    ⟨JsVal.num 9, JsVal.null⟩ (List.mem_singleton_self _) rfl
    (Or.inr (Or.inl rfl))

def strZero : String := "0"

def putBodyC9 : PutBody :=
  ⟨none, none, none, none, some [some ⟨JsVal.num 9, JsVal.str strZero⟩]⟩

/-- C9 counterexample: a full-replace update CAN produce a row with
quantity 0 — the string quantity "0" is truthy, so `quantity || 1` keeps
it and `Number("0")` is 0; replacing the inventory of product 1 with
`[{size: 9, quantity: "0"}]` succeeds with 200 and stores quantity 0. -/
theorem putUpdate_inserts_quantity_zero_row :
    (runTx (handlePutUpdate noFail (some putBodyC9) 1) dbC1).1
        = Except.ok (mkResp 200
            (some (shoeRowJ ⟨1, nameAirZoom, brandNike, 130, none⟩)))
      ∧ (runTx (handlePutUpdate noFail (some putBodyC9) 1) dbC1).2.db.inv
        = [⟨1, 9, 0⟩] :=
  ⟨rfl, rfl⟩

/-! ### C4/C5: the create (seed) handler -/

/-- An inventory entry of a submitted product coerces to proper numbers
whenever the handler will build a row from it. -/
def invEntryOk (it : SeedInvItem) : Bool :=
  !(hasVal it.size) ||
    ((jsToNumber it.size).isSome &&
      (jsToNumber (jsOr it.quantity (JsVal.num 1))).isSome)

/-- A submitted product whose insert values carry no NaN. -/
def seedShoeOk (s : SeedShoe) : Bool :=
  (jsToNumber s.price).isSome &&
    (match s.inventory with
      | some items => items.all invEntryOk
      | none => true)

def seedRowsOk (l : List SeedShoe) : Bool := l.all seedShoeOk

/-- Evaluation helper: a bind whose first component succeeds. -/
theorem txBind_ok (m : TxM α) (f : α → TxM β) (c c1 : Conn) (a : α)
    (hm : m c = (Except.ok a, c1)) : txBind m f c = f a c1 := by
  unfold txBind
  rw [hm]

/-- Evaluation helper: a catch whose body succeeds. -/
theorem txCatch_ok (m : TxM α) (h : QErr → TxM α) (c c2 : Conn) (a : α)
    (hm : m c = (Except.ok a, c2)) : txCatch m h c = (Except.ok a, c2) := by
  unfold txCatch
  rw [hm]

/-- Evaluation helper: a failure-free query whose semantics succeeds. -/
theorem liftQ_noFail_ok (tag : Query) (f : Db → Option (Db × α)) (c : Conn)
    (db2 : Db) (a : α) (hf : f c.db = some (db2, a)) :
    liftQ noFail tag f c
      = (Except.ok a,
          { c with db := db2, qn := c.qn + 1, tr := c.tr ++ [Eff.query tag] }) := by
  rw [liftQ_noFail, hf]

/-- A computation that always succeeds, adding exactly `k` rows to the
`shoes` table. -/
def RunsAddingShoes (m : TxM α) (k : Nat) : Prop :=
  ∀ c, ∃ a c2, m c = (Except.ok a, c2)
    ∧ c2.db.shoes.length = c.db.shoes.length + k

theorem runsAdd_bind (m : TxM α) (f : α → TxM β) (k1 k2 : Nat)
    (hm : RunsAddingShoes m k1) (hf : ∀ a, RunsAddingShoes (f a) k2) :
    RunsAddingShoes (txBind m f) (k1 + k2) := by
  intro c
  obtain ⟨a, c1, hm1, hl1⟩ := hm c
  obtain ⟨b, c2, hf1, hl2⟩ := hf a c1
  refine ⟨b, c2, ?_, by omega⟩
  unfold txBind
  rw [hm1]
  exact hf1

theorem runsAdd_txPure (a : α) : RunsAddingShoes (txPure a) 0 :=
  fun c => ⟨a, c, rfl, rfl⟩

/-- A read-only query (semantics returns the database unchanged). -/
theorem runsAdd_liftQ_pres (tag : Query) (f : Db → Option (Db × α))
    (hf : ∀ db, ∃ a, f db = some (db, a)) :
    RunsAddingShoes (liftQ noFail tag f) 0 := by
  intro c
  obtain ⟨a, hfa⟩ := hf c.db
  exact ⟨a, _, liftQ_noFail_ok tag f c c.db a hfa, rfl⟩

theorem rowsOk_take (rows : List (Nat × Option Rat × Option Rat)) (n : Nat)
    (h : rowsOk rows = true) : rowsOk (rows.take n) = true := by
  rw [rowsOk, List.all_eq_true] at h ⊢
  exact fun r hr => h r (List.take_subset n rows hr)

theorem rowsOk_drop (rows : List (Nat × Option Rat × Option Rat)) (n : Nat)
    (h : rowsOk rows = true) : rowsOk (rows.drop n) = true := by
  rw [rowsOk, List.all_eq_true] at h ⊢
  exact fun r hr => h r (List.drop_subset n rows hr)

theorem seedRowsOk_take (l : List SeedShoe) (n : Nat)
    (h : seedRowsOk l = true) : seedRowsOk (l.take n) = true := by
  rw [seedRowsOk, List.all_eq_true] at h ⊢
  exact fun s hs => h s (List.take_subset n l hs)

theorem seedRowsOk_drop (l : List SeedShoe) (n : Nat)
    (h : seedRowsOk l = true) : seedRowsOk (l.drop n) = true := by
  rw [seedRowsOk, List.all_eq_true] at h ⊢
  exact fun s hs => h s (List.drop_subset n l hs)

theorem valsOk_of_seedRowsOk (batch : List SeedShoe)
    (h : seedRowsOk batch = true) : valsOk (batch.map seedShoeVal) = true := by
  rw [valsOk, List.all_eq_true]
  intro v hv
  rcases List.mem_map.mp hv with ⟨s, hs, hveq⟩
  rw [seedRowsOk, List.all_eq_true] at h
  have hsk := h s hs
  rw [seedShoeOk, Bool.and_eq_true] at hsk
  rw [← hveq]
  simpa [seedShoeVal] using hsk.1

/-- The inventory value rows built for an ok batch carry no NaN. -/
theorem seedInvRows_ok (batch : List SeedShoe) (ids : List Nat)
    (h : seedRowsOk batch = true) : rowsOk (seedInvRows batch ids) = true := by
  rw [rowsOk, List.all_eq_true]
  intro r hr
  rw [seedInvRows] at hr
  rcases List.mem_flatMap.mp hr with ⟨p, hp, hr2⟩
  have hs : p.1 ∈ batch := (List.of_mem_zip hp).1
  rw [seedRowsOk, List.all_eq_true] at h
  have hsk := h p.1 hs
  rw [seedShoeOk, Bool.and_eq_true] at hsk
  match hinv : p.1.inventory with
  | none =>
    rw [hinv] at hr2
    cases hr2
  | some items =>
    rw [hinv] at hr2
    rcases List.mem_filterMap.mp hr2 with ⟨it, hit, hmk⟩
    by_cases hsz : hasVal it.size = true
    · rw [if_pos hsz] at hmk
      have hallinv := hsk.2
      rw [hinv] at hallinv
      rw [List.all_eq_true] at hallinv
      have hok := hallinv it hit
      rw [invEntryOk, Bool.or_eq_true, Bool.and_eq_true] at hok
      rcases hok with hok | hok
      · rw [Bool.not_eq_true'] at hok
        exact absurd hsz (by rw [hok]; exact Bool.false_ne_true)
      · cases hmk
        simpa using hok
    · rw [if_neg hsz] at hmk
      cases hmk

/-- The batched shoes insert succeeds on ok values and appends one row
per value. -/
theorem runsAdd_insertShoes
    (vals : List (String × String × Option Rat × Option String))
    (hvals : valsOk vals = true) :
    RunsAddingShoes
      (liftQ noFail (Query.insShoes vals) (dbInsertShoes vals)) vals.length := by
  intro c
  match hins : dbInsertShoes vals c.db with
  | none =>
    exfalso
    unfold dbInsertShoes at hins
    rw [if_pos hvals] at hins
    cases hins
  | some (db1, iid) =>
    refine ⟨iid, _, liftQ_noFail_ok _ _ c db1 iid hins, ?_⟩
    unfold dbInsertShoes at hins
    rw [if_pos hvals] at hins
    cases hins
    simp [List.length_zipWith, List.length_range]

/-- The batched inventory insert succeeds on ok rows and leaves the
`shoes` table alone. -/
theorem runsAdd_insertInv (rows : List (Nat × Option Rat × Option Rat))
    (hrows : rowsOk rows = true) :
    RunsAddingShoes (liftQ noFail (Query.insInv rows) (dbInsertInv rows)) 0 := by
  intro c
  match hins : dbInsertInv rows c.db with
  | none =>
    exfalso
    unfold dbInsertInv at hins
    rw [if_pos hrows] at hins
    cases hins
  | some (db1, u) =>
    refine ⟨u, _, liftQ_noFail_ok _ _ c db1 u hins, ?_⟩
    unfold dbInsertInv at hins
    rw [if_pos hrows] at hins
    cases hins
    simp

theorem insertChunksGo_runs :
    ∀ (fuel : Nat) (rows : List (Nat × Option Rat × Option Rat)),
      rowsOk rows = true →
      RunsAddingShoes (insertChunksGo noFail fuel rows) 0 := by
  intro fuel
  induction fuel with
  | zero =>
    intro rows _
    match rows with
    | [] => exact runsAdd_txPure ()
    | r :: rest => exact runsAdd_txPure ()
  | succ n ih =>
    intro rows hok
    match rows with
    | [] => exact runsAdd_txPure ()
    | r :: rest =>
      exact runsAdd_bind _ _ 0 0
        (runsAdd_insertInv _ (rowsOk_take _ 10 hok))
        (fun _ => ih _ (rowsOk_drop _ 10 hok))

/-- One batch iteration of the create handler succeeds on ok products
and inserts exactly the products of the batch. -/
theorem seedBatchStep_runs (slen : Nat) (batch : List SeedShoe)
    (created : List ShoeRow) (hok : seedRowsOk batch = true) :
    RunsAddingShoes (seedBatchStep noFail slen batch created) batch.length := by
  unfold seedBatchStep
  simp only [txBind_def, txPure_def]
  have hins := runsAdd_insertShoes (batch.map seedShoeVal)
    (valsOk_of_seedRowsOk batch hok)
  rw [List.length_map] at hins
  apply runsAdd_bind _ _ batch.length 0 hins
  intro iid
  by_cases h1 : slen = 1
  · rw [if_pos h1]
    apply runsAdd_bind _ _ 0 0
    · exact runsAdd_liftQ_pres _ _ (fun db => ⟨dbFindShoe db iid, rfl⟩)
    · intro r
      apply runsAdd_bind _ _ 0 0
      · exact runsAdd_txPure _
      · intro y
        apply runsAdd_bind _ _ 0 0
        · unfold insertChunks
          exact insertChunksGo_runs _ _ (seedInvRows_ok batch _ hok)
        · intro _
          exact runsAdd_txPure _
  · rw [if_neg h1]
    apply runsAdd_bind _ _ 0 0
    · exact runsAdd_txPure _
    · intro y
      apply runsAdd_bind _ _ 0 0
      · unfold insertChunks
        exact insertChunksGo_runs _ _ (seedInvRows_ok batch _ hok)
      · intro _
        exact runsAdd_txPure _

/-- The whole insert loop of the create handler succeeds on ok products,
returns the inserted count, and grows the `shoes` table by one row per
product. -/
theorem seedLoopGo_ok (slen : Nat) :
    ∀ (fuel : Nat) (l : List SeedShoe), l.length ≤ fuel →
      seedRowsOk l = true →
      ∀ (total : Nat) (created : List ShoeRow) (c : Conn),
      ∃ created2 c2,
        seedLoopGo noFail slen fuel l total created c
          = (Except.ok (total + l.length, created2), c2)
          ∧ c2.db.shoes.length = c.db.shoes.length + l.length := by
  intro fuel
  induction fuel with
  | zero =>
    intro l hlen _ total created c
    have hnil : l = [] := List.length_eq_zero.mp (Nat.le_zero.mp hlen)
    subst hnil
    exact ⟨created, c, by simp [seedLoopGo, txPure_def, txPure], by simp⟩
  | succ n ih =>
    intro l hlen hok total created c
    match l with
    | [] => exact ⟨created, c, by simp [seedLoopGo, txPure_def, txPure], by simp⟩
    | s :: rest =>
      obtain ⟨created2, c1, hstep, hlen1⟩ :=
        seedBatchStep_runs slen ((s :: rest).take 10) created
          (seedRowsOk_take _ 10 hok) c
      have harith : ((s :: rest).take 10).length + ((s :: rest).drop 10).length
          = (s :: rest).length := by
        rw [List.length_take, List.length_drop]
        simp only [List.length_cons]
        omega
      have hdlen : ((s :: rest).drop 10).length ≤ n := by
        rw [List.length_drop]
        simp only [List.length_cons] at hlen ⊢
        omega
      obtain ⟨created3, c2, hrec, hlen2⟩ :=
        ih ((s :: rest).drop 10) hdlen (seedRowsOk_drop _ 10 hok)
          (total + ((s :: rest).take 10).length) created2 c1
      refine ⟨created3, c2, ?_, by omega⟩
      show txBind (seedBatchStep noFail slen ((s :: rest).take 10) created)
        (fun created2 => seedLoopGo noFail slen n ((s :: rest).drop 10)
          (total + ((s :: rest).take 10).length) created2) c
        = (Except.ok (total + (s :: rest).length, created3), c2)
      rw [txBind_ok _ _ c c1 created2 hstep, hrec]
      have : total + ((s :: rest).take 10).length + ((s :: rest).drop 10).length
          = total + (s :: rest).length := by omega
      rw [this]

/-- Full run of the create handler for an authorized POST whose body
resolves to a nonempty product list, expressed through the result of the
insert loop. -/
theorem seedShoesHandler_run (db : Db) (g : Groups) (b : SeedBody)
    (l : List SeedShoe) (created2 : List ShoeRow) (c2 : Conn)
    (hadmin : isAdmin g = true) (hres : resolveShoes b = some l)
    (hne : ¬ l.length = 0)
    (hloop : seedLoopGo noFail l.length l.length l 0 []
        ⟨db, none, 0, [Eff.connect]⟩
      = (Except.ok (0 + l.length, created2), c2)) :
    runTx (seedShoesHandler noFail ⟨Method.POST, g, some b⟩) db
      = (Except.ok (seedResp l (0 + l.length) created2), c2) := by
  have hwith : withDbTx noFail (seedInsertAll noFail l) ⟨db, none, 0, []⟩
      = (Except.ok (0 + l.length, created2), c2) := by
    unfold withDbTx seedInsertAll
    simp only [txBind_def]
    rw [txBind_ok _ _ ⟨db, none, 0, []⟩ ⟨db, none, 0, [Eff.connect]⟩ () rfl]
    exact txCatch_ok _ _ _ _ _ hloop
  unfold seedShoesHandler runTx txCatch
  simp only [txBind_def, hadmin, hres, hne, not_true, Bool.true_eq_false,
    if_false, if_true, ite_false, ite_true, reduceCtorEq, reduceIte]
  rw [txBind_ok _ _ ⟨db, none, 0, []⟩ c2 (0 + l.length, created2) hwith]
  rfl

/-- C4 (amended): the create handler rejects a batch with 400 — writing
nothing — exactly when the resolved `shoes` value is missing, not an
array, or empty (after the single-item lifting, which itself requires a
truthy name/brand and non-null price); items inside an array batch are
not field-validated: any nonempty ok-coercing batch is inserted whole,
one product per item, with a 200 or 201 response. -/
theorem createShoes_validation (db : Db) (g : Groups) (b : SeedBody)
    (hadmin : isAdmin g = true) :
    (resolveShoes b = none →
      runTx (seedShoesHandler noFail ⟨Method.POST, g, some b⟩) db
        = (Except.ok (mkResp 400 (some (msgObj invalidShoeDataMsg))),
            ⟨db, none, 0, []⟩)) ∧
    (resolveShoes b = some [] →
      runTx (seedShoesHandler noFail ⟨Method.POST, g, some b⟩) db
        = (Except.ok (mkResp 400 (some (msgObj invalidShoeDataMsg))),
            ⟨db, none, 0, []⟩)) ∧
    (∀ l, resolveShoes b = some l → l ≠ [] → seedRowsOk l = true →
      ∃ resp c2,
        runTx (seedShoesHandler noFail ⟨Method.POST, g, some b⟩) db
            = (Except.ok resp, c2)
          ∧ (resp.status = 201 ∨ resp.status = 200)
          ∧ c2.db.shoes.length = db.shoes.length + l.length) := by
  refine ⟨?_, ?_, ?_⟩
  · intro hres
    unfold seedShoesHandler runTx txCatch
    simp [txBind_def, txPure_def, txPure, hadmin, hres]
  · intro hres
    unfold seedShoesHandler runTx txCatch
    simp [txBind_def, txPure_def, txPure, hadmin, hres]
  · intro l hres hne hrows
    have hlen0 : ¬ l.length = 0 := fun h => hne (List.length_eq_zero.mp h)
    obtain ⟨created2, c2, hloop, hl2⟩ :=
      seedLoopGo_ok l.length l.length l (le_refl _) hrows 0 []
        ⟨db, none, 0, [Eff.connect]⟩
    have hrun := seedShoesHandler_run db g b l created2 c2 hadmin hres hlen0 hloop
    refine ⟨_, c2, hrun, ?_, hl2⟩
    rcases created2 with _ | ⟨r0, rest0⟩
    · exact Or.inr rfl
    · rcases rest0 with _ | ⟨r1, rest1⟩
      · by_cases h1 : l.length = 1
        · simp [seedResp, h1, mkResp]
        · simp [seedResp, if_neg h1, mkResp]
      · exact Or.inr rfl

def emptyStr : String := ""
def dbEmpty : Db := ⟨[], [], 1⟩

def seedBodyC4 : SeedBody :=
  ⟨some [⟨emptyStr, emptyStr, JsVal.null, none, none⟩], none, none,
    JsVal.undef, JsVal.undef, none, none⟩

def sevC4 : SeedEvent := ⟨Method.POST, Groups.arr [adminStr], some seedBodyC4⟩

/-- C4 counterexample: a batch whose only item has an empty name, empty
brand and null price is NOT rejected with 400 — the item is inserted
(price coerced to 0) and the request is answered 201. -/
theorem createShoes_accepts_invalid_item :
    (runTx (seedShoesHandler noFail sevC4) dbEmpty).1
        = Except.ok (mkResp 201 (some (shoeRowJ ⟨1, emptyStr, emptyStr, 0, none⟩)))
      ∧ (runTx (seedShoesHandler noFail sevC4) dbEmpty).2.db.shoes
        = [⟨1, emptyStr, emptyStr, 0, none⟩] :=
  ⟨rfl, rfl⟩

def seedBodyBad : SeedBody :=
  ⟨none, none, none, JsVal.undef, JsVal.undef, none, none⟩

/-- C4 witness: a body with no `shoes` array and no single-item fields
is rejected with 400 and no effects. -/
theorem createShoes_validation_witness :
    runTx (seedShoesHandler noFail
        ⟨Method.POST, Groups.arr [adminStr], some seedBodyBad⟩) dbEmpty
      = (Except.ok (mkResp 400 (some (msgObj invalidShoeDataMsg))),
          ⟨dbEmpty, none, 0, []⟩) :=
  (createShoes_validation dbEmpty (Groups.arr [adminStr]) seedBodyBad rfl).1 rfl

/-- A freshly appended row with a fresh id is what `find?` by that id
returns. -/
theorem find?_append_fresh (l : List ShoeRow) (r : ShoeRow) (nid : Nat)
    (hwf : ∀ x ∈ l, x.id < nid) (hr : r.id = nid) :
    (l ++ [r]).find? (fun x => x.id = nid) = some r := by
  induction l with
  | nil =>
    simp [List.find?, hr]
  | cons x xs ih =>
    have hx : x.id < nid := hwf x (List.mem_cons_self x xs)
    rw [List.cons_append, List.find?_cons_of_neg _ (by simp; omega)]
    exact ih (fun y hy => hwf y (List.mem_cons_of_mem x hy))

/-- Exact run of the insert loop of the create handler for a single ok
product: one shoes insert, the re-fetch of the created row, and the
inventory inserts; the created-rows accumulator holds exactly the new
row. -/
theorem seedLoop_single (db : Db) (s : SeedShoe) (p : Rat)
    (hwf : dbWF db) (hp : jsToNumber s.price = some p)
    (hok : seedShoeOk s = true) :
    ∃ c2, seedLoopGo noFail 1 1 [s] 0 [] ⟨db, none, 0, [Eff.connect]⟩
      = (Except.ok (0 + 1,
          [⟨db.nextId, s.name, s.brand, p, imgPush s.image⟩]), c2) := by
  have hvals : valsOk [seedShoeVal s] = true := by
    simp [valsOk, seedShoeVal, hp]
  have hins : dbInsertShoes [seedShoeVal s] db
      = some ({ db with
          shoes := db.shoes ++ [⟨db.nextId, s.name, s.brand, p, imgPush s.image⟩],
          nextId := db.nextId + 1 }, db.nextId) := by
    unfold dbInsertShoes
    rw [if_pos hvals]
    simp [seedShoeVal, hp, List.range_succ]
  have hfind : dbFindShoe { db with
        shoes := db.shoes ++ [⟨db.nextId, s.name, s.brand, p, imgPush s.image⟩],
        nextId := db.nextId + 1 } db.nextId
      = some ⟨db.nextId, s.name, s.brand, p, imgPush s.image⟩ := by
    unfold dbFindShoe
    exact find?_append_fresh db.shoes _ db.nextId hwf rfl
  have hrows : rowsOk (seedInvRows [s]
      ((List.range [s].length).map (fun i => db.nextId + i))) = true := by
    apply seedInvRows_ok
    simp [seedRowsOk, hok]
  obtain ⟨u, c3, hchunks, _⟩ := insertChunksGo_runs
    (seedInvRows [s] ((List.range [s].length).map (fun i => db.nextId + i))).length
    (seedInvRows [s] ((List.range [s].length).map (fun i => db.nextId + i))) hrows
    ⟨{ db with
        shoes := db.shoes ++ [⟨db.nextId, s.name, s.brand, p, imgPush s.image⟩],
        nextId := db.nextId + 1 }, none, 2,
      [Eff.connect, Eff.query (Query.insShoes [seedShoeVal s]),
        Eff.query (Query.selShoeAll db.nextId)]⟩
  refine ⟨c3, ?_⟩
  show txBind (seedBatchStep noFail 1 [s] [])
    (fun created2 => seedLoopGo noFail 1 0 [] (0 + 1) created2)
    ⟨db, none, 0, [Eff.connect]⟩ = _
  have hstep : seedBatchStep noFail 1 [s] [] ⟨db, none, 0, [Eff.connect]⟩
      = (Except.ok [⟨db.nextId, s.name, s.brand, p, imgPush s.image⟩], c3) := by
    unfold seedBatchStep insertChunks
    simp only [txBind_def, txPure_def]
    rw [txBind_ok _ _ _
      ⟨{ db with
          shoes := db.shoes ++ [⟨db.nextId, s.name, s.brand, p, imgPush s.image⟩],
          nextId := db.nextId + 1 }, none, 1,
        [Eff.connect, Eff.query (Query.insShoes [seedShoeVal s])]⟩
      db.nextId (by simp [liftQ_noFail, hins])]
    simp only [eq_self_iff_true, if_true, ite_true]
    rw [txBind_ok _ _ _
      ⟨{ db with
          shoes := db.shoes ++ [⟨db.nextId, s.name, s.brand, p, imgPush s.image⟩],
          nextId := db.nextId + 1 }, none, 2,
        [Eff.connect, Eff.query (Query.insShoes [seedShoeVal s]),
          Eff.query (Query.selShoeAll db.nextId)]⟩
      (some ⟨db.nextId, s.name, s.brand, p, imgPush s.image⟩)
      (by simp [liftQ_noFail, hfind])]
    show txBind (insertChunksGo noFail
        (seedInvRows [s] ((List.range [s].length).map (fun i => db.nextId + i))).length
        (seedInvRows [s] ((List.range [s].length).map (fun i => db.nextId + i))))
      (fun _ => txPure ([] ++
        [(⟨db.nextId, s.name, s.brand, p, imgPush s.image⟩ : ShoeRow)]))
      ⟨{ db with
          shoes := db.shoes ++ [⟨db.nextId, s.name, s.brand, p, imgPush s.image⟩],
          nextId := db.nextId + 1 }, none, 2,
        [Eff.connect, Eff.query (Query.insShoes [seedShoeVal s]),
          Eff.query (Query.selShoeAll db.nextId)]⟩ = _
    rw [txBind_ok _ _ _ c3 u hchunks]
    rfl
  rw [txBind_ok _ _ _ c3 _ hstep]
  rfl

/-- C5 (amended): a successful single-product create returns 201 whose
body is the created product row re-fetched by its generated id — the
shoes-table columns only, carrying no nested `inventory` field; a
multi-product batch returns 200 with the inserted count. -/
theorem createShoes_single_201_no_inventory (db : Db) (g : Groups)
    (b : SeedBody) (s : SeedShoe) (p : Rat) (hadmin : isAdmin g = true)
    (hres : resolveShoes b = some [s]) (hok : seedShoeOk s = true)
    (hp : jsToNumber s.price = some p) (hwf : dbWF db) :
    ((runTx (seedShoesHandler noFail ⟨Method.POST, g, some b⟩) db).1
        = Except.ok (mkResp 201 (some (shoeRowJ
            ⟨db.nextId, s.name, s.brand, p, imgPush s.image⟩)))
      ∧ jLookup (shoeRowJ ⟨db.nextId, s.name, s.brand, p, imgPush s.image⟩)
          inventoryKey = none)
    ∧ (∀ (l : List SeedShoe) (b2 : SeedBody), resolveShoes b2 = some l →
        2 ≤ l.length → seedRowsOk l = true →
        ∃ c2, runTx (seedShoesHandler noFail ⟨Method.POST, g, some b2⟩) db
          = (Except.ok (mkResp 200
              (some (msgObj (seedCountMsg l.length)))), c2)) := by
  constructor
  · obtain ⟨c2, hloop⟩ := seedLoop_single db s p hwf hp hok
    have hrun := seedShoesHandler_run db g b [s]
      [⟨db.nextId, s.name, s.brand, p, imgPush s.image⟩] c2 hadmin hres
      (by simp) hloop
    exact ⟨congrArg Prod.fst hrun, rfl⟩
  · intro l b2 hres2 hlen2 hrows
    have hne2 : ¬ l.length = 0 := by omega
    obtain ⟨created2, c2, hloop, _⟩ :=
      seedLoopGo_ok l.length l.length l (le_refl _) hrows 0 []
        ⟨db, none, 0, [Eff.connect]⟩
    have hrun := seedShoesHandler_run db g b2 l created2 c2 hadmin hres2
      hne2 hloop
    refine ⟨c2, ?_⟩
    rw [hrun]
    have h1 : ¬ l.length = 1 := by omega
    rcases created2 with _ | ⟨r0, rest0⟩
    · simp [seedResp, Nat.zero_add]
    · rcases rest0 with _ | ⟨r1, rest1⟩
      · simp [seedResp, if_neg h1, Nat.zero_add]
      · simp [seedResp, Nat.zero_add]

def seedBodyC5 : SeedBody :=
  ⟨some [⟨nameAirZoom, brandNike, JsVal.num 130, none,
      some [⟨JsVal.num 9, JsVal.num 3⟩]⟩], none, none,
    JsVal.undef, JsVal.undef, none, none⟩

def sevC5 : SeedEvent := ⟨Method.POST, Groups.arr [adminStr], some seedBodyC5⟩

/-- C5 counterexample: a single-product create whose product carries
inventory `[{size: 9, quantity: 3}]` is answered 201, its inventory rows
ARE stored, yet the response body is only the shoes-table row — it has
no `inventory` field, contradicting "including nested inventory". -/
theorem createShoes_single_body_lacks_inventory :
    (runTx (seedShoesHandler noFail sevC5) dbEmpty).1
        = Except.ok (mkResp 201
            (some (shoeRowJ ⟨1, nameAirZoom, brandNike, 130, none⟩)))
      ∧ (runTx (seedShoesHandler noFail sevC5) dbEmpty).2.db.inv
        = [⟨1, 9, 3⟩]
      ∧ jLookup (shoeRowJ ⟨1, nameAirZoom, brandNike, 130, none⟩)
          inventoryKey = none :=
  ⟨rfl, rfl, rfl⟩

/-- C5 witness: the amended single-product claim at a concrete store and
product. -/
theorem createShoes_single_201_witness :
    (runTx (seedShoesHandler noFail sevC5) dbEmpty).1
      = Except.ok (mkResp 201
          (some (shoeRowJ ⟨1, nameAirZoom, brandNike, 130, none⟩))) := by
  have h := createShoes_single_201_no_inventory dbEmpty
    (Groups.arr [adminStr]) seedBodyC5
    ⟨nameAirZoom, brandNike, JsVal.num 130, none,
      some [⟨JsVal.num 9, JsVal.num 3⟩]⟩ 130
    rfl rfl rfl rfl (fun r hr => absurd hr (List.not_mem_nil r))
  exact h.1.1

end SneakerStore
